import Mathlib

/-!
Verification of the SDC4 XML instance pipeline of SDCStudio_Examples.

The development shallowly embeds the pipeline's core modules:

* `sdc_validator.py` — the Exceptional-Value Corrector (`auto_correct_with_evs`,
  `_find_element_by_ct_id`, `_choose_ev_for_error`);
* `xml_builder.py` — the Document Builder (placeholder substitution,
  `_process_ev_placeholders`, pruning passes, `_format_temporal_value`,
  `_get_value_element_name`);
* `json_extractor.py` — the query-oriented JSON projection;
* `json_instance_generator.py` — the clean JSON projection;
* `rdf_extractor.py` — the RDF 1.2 Turtle projection.

XML trees are modelled by the mutual inductives `Elem` / `ElemList` (tag,
attributes, text, children).  Python's `None` text is modelled as the empty
string: every check the sources make on text is a truthiness check, and
`None` and `""` are both falsy, so the identification is faithful.
`ElementTree.iter` order is preorder (the node itself, then each child's
subtree in order), and `find(".//name")` returns the first descendant with
exactly that tag in document order; the traversal functions below implement
those orders.  Mutation of a shared tree is modelled by explicit
tree-returning functions, and a Python exception (the uncaught `ValueError`
that `elem.remove` can raise) is modelled with `Except`.
-/

namespace SDC4

/-- Characters used by the sources, written via code points to keep the file
free of escape-laden character literals. -/
def spaceChar : Char := Char.ofNat 32

def quoteChar : Char := Char.ofNat 34

def apostropheChar : Char := Char.ofNat 39

def plusChar : Char := Char.ofNat 43

def minusChar : Char := Char.ofNat 45

def dotChar : Char := Char.ofNat 46

def semicolonChar : Char := Char.ofNat 59

def backslashChar : Char := Char.ofNat 92

def lfChar : Char := Char.ofNat 10

def crChar : Char := Char.ofNat 13

def tabChar : Char := Char.ofNat 9

def lbraceChar : Char := Char.ofNat 123

def rbraceChar : Char := Char.ofNat 125

/-- `listStarts pat l` is true when `pat` is an initial segment of `l`
(Python's `str.startswith` on character lists). -/
def listStarts : List Char → List Char → Bool
  | [], _ => true
  | _ :: _, [] => false
  | p :: ps, c :: cs => p == c && listStarts ps cs

/-- `containsChars hay needle` is Python's `needle in hay` on character
lists: true when `needle` occurs contiguously within `hay`. -/
def containsChars (hay needle : List Char) : Bool :=
  match hay with
  | [] => needle.isEmpty
  | _ :: t => listStarts needle hay || containsChars t needle

/-- Python's `needle in hay` for strings. -/
def strContains (hay needle : String) : Bool :=
  containsChars hay.data needle.data

/-- Python's `str.startswith`. -/
def strStarts (s pre : String) : Bool := listStarts pre.data s.data

/-- Python's `str.replace` (all non-overlapping occurrences, scanning left to
right), restricted to non-empty needles; the sources never use an empty
needle, and for an empty needle this returns the input unchanged.  The `fuel`
argument makes the recursion structural (each step consumes at least one
character, so `hay.length` fuel is always enough). -/
def replaceFuel (needle repl : List Char) : Nat → List Char → List Char
  | _, [] => []
  | 0, l => l
  | fuel + 1, h :: t =>
    match needle with
    | [] => h :: t
    | _ :: ns =>
      if listStarts needle (h :: t) then
        repl ++ replaceFuel needle repl fuel (t.drop ns.length)
      else
        h :: replaceFuel needle repl fuel t

def replaceChars (needle repl hay : List Char) : List Char :=
  replaceFuel needle repl hay.length hay

/-- Python's `str.replace` on strings. -/
def pyReplace (s needle repl : String) : String :=
  String.mk (replaceChars needle.data repl.data s.data)

/-- Python's `str.lower` (ASCII-faithful: the data handled by the pipeline is
ASCII, where `Char.toLower` agrees with Python). -/
def pyLower (s : String) : String := String.mk (s.data.map Char.toLower)

def isPyWhitespace (c : Char) : Bool :=
  c.toNat == 32 || c.toNat == 9 || c.toNat == 10 || c.toNat == 13 ||
    c.toNat == 11 || c.toNat == 12

/-- Python's `str.strip()` for the ASCII whitespace that occurs in the data. -/
def pyStrip (s : String) : String :=
  String.mk (((s.data.dropWhile isPyWhitespace).reverse.dropWhile
    isPyWhitespace).reverse)

/-- `s.split(c)[0]` — the prefix of `s` before the first occurrence of the
character `c`, or all of `s` when `c` does not occur. -/
def pySplitHead (s : String) (c : Char) : String :=
  String.mk (s.data.takeWhile (fun x => x != c))

/-- `s.split(c)[1]`: the segment between the first and second occurrence of
`c` (or the rest of the string when `c` occurs once).  The sources only
index `[1]` under an `in` guard, so the out-of-range case cannot occur. -/
def pySplitAt1 (s : String) (c : Char) : String :=
  match s.data.dropWhile (fun x => x != c) with
  | [] => ""
  | _ :: t => String.mk (t.takeWhile (fun x => x != c))

/-- `_strip_namespace` / `etree.QName(tag).localname`: the sources split the
tag on the closing-brace character and take the second segment when a
closing brace is present (`tag.split(rb)[1] if rb in tag else tag`). -/
def stripNamespace (tag : String) : String :=
  if strContains tag (String.mk [rbraceChar]) then
    match tag.data.dropWhile (fun c => c != rbraceChar) with
    | [] => ""
    | _ :: t => String.mk (t.takeWhile (fun c => c != rbraceChar))
  else tag

mutual
/-- An XML element: tag, attributes, text, children.  Comment nodes are
modelled as elements with tag `#comment` (their text is the comment body);
the sources detect them via `callable(tag)` and the model via this tag. -/
inductive Elem where
  | mk (tag : String) (attrs : List (String × String)) (text : String)
      (children : ElemList)

/-- Child lists, as a mutual inductive so that tree traversals are
structurally recursive. -/
inductive ElemList where
  | nil
  | cons (head : Elem) (tail : ElemList)
end

def ElemList.ofList : List Elem → ElemList
  | [] => .nil
  | e :: rest => .cons e (ElemList.ofList rest)

def ElemList.toList : ElemList → List Elem
  | .nil => []
  | .cons e rest => e :: rest.toList

def ElemList.append : ElemList → ElemList → ElemList
  | .nil, l => l
  | .cons e rest, l => .cons e (rest.append l)

/-- `List.eraseIdx` on child lists (the semantics of removing the i-th
child). -/
def ElemList.eraseIdx : ElemList → Nat → ElemList
  | .nil, _ => .nil
  | .cons _ t, 0 => t
  | .cons h t, n + 1 => .cons h (t.eraseIdx n)

/-- Convenience constructor taking a plain list of children. -/
def el (tag : String) (attrs : List (String × String)) (text : String)
    (children : List Elem) : Elem :=
  Elem.mk tag attrs text (ElemList.ofList children)

def Elem.tag : Elem → String
  | .mk t _ _ _ => t

def Elem.attrs : Elem → List (String × String)
  | .mk _ a _ _ => a

def Elem.text : Elem → String
  | .mk _ _ x _ => x

def Elem.children : Elem → ElemList
  | .mk _ _ _ cs => cs

/-- `elem.get(name)`: attribute lookup, first match. -/
def Elem.getAttr (e : Elem) (name : String) : Option String :=
  (e.attrs.find? (fun p => p.1 == name)).map (·.2)

def Elem.withChildren : Elem → ElemList → Elem
  | .mk t a x _, cs => .mk t a x cs

/-- `ET.SubElement parent tag` followed by setting its text: append a fresh
child. -/
def Elem.appendChild (e : Elem) (c : Elem) : Elem :=
  e.withChildren (e.children.append (.cons c .nil))

/-- Is this node a comment node (lxml/ElementTree comment, whose tag is
callable in Python)? -/
def Elem.isComment (e : Elem) : Bool := e.tag == "#comment"

/-- `elem.find(".//name")` restricted to a child list: first element with
exactly the given tag in document order, searching each element before its
younger siblings and an element itself before its descendants. -/
def findDescList (tag : String) : ElemList → Option Elem
  | .nil => none
  | .cons (Elem.mk t a x cs) rest =>
    if t == tag then some (Elem.mk t a x cs)
    else
      match findDescList tag cs with
      | some r => some r
      | none => findDescList tag rest

/-- `elem.find(".//name")`: first matching strict descendant of `e`. -/
def Elem.findDesc (e : Elem) (tag : String) : Option Elem :=
  findDescList tag e.children

/-- Path (list of child indices) to the first strict descendant with the
given tag, in the same document order as `findDescList`. -/
def findPathList (tag : String) (i : Nat) : ElemList → Option (List Nat)
  | .nil => none
  | .cons (Elem.mk t _ _ cs) rest =>
    if t == tag then some [i]
    else
      match findPathList tag 0 cs with
      | some p => some (i :: p)
      | none => findPathList tag (i + 1) rest

def Elem.findPath (e : Elem) (tag : String) : Option (List Nat) :=
  findPathList tag 0 e.children

/-!
## Exceptional-Value Corrector (`sdc_validator.py`)
-/

/-- `SDCValidator._choose_ev_for_error`: ordered first-match-wins heuristic
over the lowercased error message. -/
def choose_ev_for_error (error_msg : String) : String :=
  let error_lower := pyLower error_msg
  if ["required", "missing", "mandatory"].any (fun w => strContains error_lower w) then
    "NotPerformed"
  else if ["type", "format", "pattern"].any (fun w => strContains error_lower w) then
    "NoInformation"
  else if ["range", "constraint", "bounds", "limit"].any (fun w => strContains error_lower w) then
    "Unknown"
  else if ["refused", "declined"].any (fun w => strContains error_lower w) then
    "Refused"
  else if ["not applicable", "n/a"].any (fun w => strContains error_lower w) then
    "NotApplicable"
  else
    "NoInformation"

/-- The per-component body of `auto_correct_with_evs` once
`_find_element_by_ct_id` has located `e`: read the label (`.//label`, falling
back to the ct_id), remove the element returned by `e.find(".//value")` —
`elem.remove` raises `ValueError` when that element is not a direct child,
modelled as `Except.error` — and append an `exceptional-value` child whose
text is chosen by `choose_ev_for_error`.  Returns the mutated element and
the label that is appended to `corrected_fields`. -/
def applyCorrection (ct_id error_msg : String) (e : Elem) :
    Except Unit (Elem × String) := do
  let field_label :=
    match e.findDesc "label" with
    | some l => l.text
    | none => ct_id
  let e1 ←
    match e.findPath "value" with
    | none => Except.ok e
    | some [i] => Except.ok (e.withChildren (e.children.eraseIdx i))
    | some _ => Except.error ()
  Except.ok
    (e1.appendChild (el "exceptional-value" [] (choose_ev_for_error error_msg) []),
      field_label)

/-- `_find_element_by_ct_id` combined with the correction body: walk the tree
in `iter()` preorder (the node itself first), correct the first element whose
`ct-id` attribute equals `ct_id`; `none` when no element matches. -/
def tryCorrectList (ct_id error_msg : String) :
    ElemList → Option (Except Unit (ElemList × String))
  | .nil => none
  | .cons (Elem.mk t a x cs) rest =>
    if (Elem.mk t a x cs).getAttr "ct-id" == some ct_id then
      some ((applyCorrection ct_id error_msg (Elem.mk t a x cs)).map
        (fun r => (ElemList.cons r.1 rest, r.2)))
    else
      match tryCorrectList ct_id error_msg cs with
      | some r =>
          some (r.map (fun q => (ElemList.cons (Elem.mk t a x q.1) rest, q.2)))
      | none =>
          match tryCorrectList ct_id error_msg rest with
          | some r =>
              some (r.map (fun q => (ElemList.cons (Elem.mk t a x cs) q.1, q.2)))
          | none => none

def tryCorrectElem (ct_id error_msg : String) (e : Elem) :
    Option (Except Unit (Elem × String)) :=
  match tryCorrectList ct_id error_msg (.cons e .nil) with
  | none => none
  | some (Except.error u) => some (Except.error u)
  | some (Except.ok (.cons e' _, l)) => some (Except.ok (e', l))
  | some (Except.ok (.nil, _)) => none

/-- The loop of `auto_correct_with_evs` over the parsed tree: for each
`(ct_id, error_msg)` in `errors` (insertion order of the Python dict),
correct the matching component when one exists; components without a match
are skipped silently. -/
def correctTree (tree : Elem) (errors : List (String × String)) :
    Except Unit (Elem × List String) :=
  errors.foldlM
    (fun acc p =>
      match tryCorrectElem p.1 p.2 acc.1 with
      | none => Except.ok acc
      | some r => r.map (fun q => (q.1, acc.2 ++ [q.2])))
    (tree, [])

/-- `SDCValidator.auto_correct_with_evs`.  Parsing is abstracted by the
`parseXml` argument (`ET.fromstring`, `none` on a `ParseError`).  When the
input does not parse it is returned as-is together with an empty correction
list; otherwise the corrected tree (serialized by the caller) and the
corrected field labels are returned.  An uncaught Python exception is
`Except.error`. -/
def auto_correct_with_evs (parseXml : String → Option Elem)
    (xml_content : String) (errors : List (String × String)) :
    Except Unit ((String ⊕ Elem) × List String) :=
  match parseXml xml_content with
  | none => Except.ok (Sum.inl xml_content, [])
  | some tree =>
      (correctTree tree errors).map (fun q => (Sum.inr q.1, q.2))

/-!
## Document Builder (`xml_builder.py`)

The builder first substitutes placeholder tokens at string level in the
serialized skeleton and then re-parses for the tree-level EV/pruning pass.
Placeholder tokens occur only in text content, so the string-level
substitution is modelled as a substitution applied to every text node of the
skeleton tree, and the intermediate parse/serialize cycle is the identity on
the tree.
-/

def PLACEHOLDER_MARK : String := "__PLACEHOLDER__"

def SDC4_NS : String := "https://semanticdatacharter.com/ns/sdc4/"

/-- An lxml tag in Clark notation, `{namespace}local`. -/
def nsTag (localPart : String) : String :=
  String.mk [lbraceChar] ++ SDC4_NS ++ String.mk [rbraceChar] ++ localPart

/-- `XMLBuilder.EV_CODES`: the 16 Exceptional Value codes and their fixed
`ev-name` values. -/
def EV_CODES : List (String × String) :=
  [("NI", "No Information"), ("MSK", "Masked"), ("INV", "Invalid"),
   ("DER", "Derived"), ("UNC", "Unencoded"), ("OTH", "Other"),
   ("NINF", "Negative Infinity"), ("PINF", "Positive Infinity"),
   ("ASKR", "Asked and Refused"), ("NASK", "Not Asked"),
   ("NAV", "Not Available"), ("NA", "Not Applicable"), ("TRC", "Trace"),
   ("ASKU", "Asked but Unknown"), ("UNK", "Unknown"),
   ("QS", "Sufficient Quantity")]

/-- `XMLBuilder.OPTIONAL_ELEMENTS`: optional leaves pruned when their
placeholder was not replaced. -/
def OPTIONAL_ELEMENTS : List String :=
  ["act", "vtb", "vte", "tr", "modified", "latitude", "longitude",
   "normal-status", "magnitude-status", "accuracy_margin",
   "precision_digits", "xdstring-language"]

/-- `XMLBuilder.OPTIONAL_CONTAINER_ELEMENTS`. -/
def OPTIONAL_CONTAINER_ELEMENTS : List String :=
  ["subject", "provider", "protocol", "workflow", "acs"]

/-- Static per-field units info (`FIELD_METADATA[...]['units']`).  A missing
dictionary key is modelled by the default (`""` / `none` / `[]`). -/
structure UnitsInfo where
  ct_id : String := ""
  label : Option String := none
  symbols : List String := []
  def_val : String := ""
deriving Repr, DecidableEq

/-- One entry of the static Field Metadata Table (`FIELD_METADATA`, keyed by
ct_id).  Missing keys are modelled by the defaults. -/
structure FieldMeta where
  ct_id : String := ""
  type : String := ""
  label : String := ""
  adapter_ctid : Option String := none
  temporal_types : List String := []
  units : Option UnitsInfo := none
deriving Repr, DecidableEq

/-- Per-field runtime metadata (`metadata_dict` entries from the form's
`field_metadata`): user-selected units, EV code, valid-time bounds,
time-recorded, modified, access tag and location.  The location pair models
the Python dict with optional `lat` / `lon` keys. -/
structure FieldRuntimeMeta where
  units : Option String := none
  ev : Option String := none
  act : Option String := none
  vtb : Option String := none
  vte : Option String := none
  tr : Option String := none
  mod : Option String := none
  location : Option (Option String × Option String) := none
deriving Repr, DecidableEq

/-- Python truthiness of an optional string (`if value:`): present and
non-empty. -/
def optTruthy : Option String → Bool
  | some s => s != ""
  | none => false

/-- A form value.  `build_from_form` receives strings, numbers and booleans
from the wizard forms; `None` values never reach the replacement loop in the
modelled scenarios. -/
inductive PyVal where
  | str (s : String)
  | int (n : Int)
  | bool (b : Bool)
deriving Repr, DecidableEq

/-- Python `str(value)`. -/
def pyStr : PyVal → String
  | .str s => s
  | .int n => toString n
  | .bool b => if b then "True" else "False"

/-- Python truthiness of a form value. -/
def pyTruthy : PyVal → Bool
  | .str s => s != ""
  | .int n => n != 0
  | .bool b => b

/-- `value is not None and value != ''` for a present form value. -/
def pyValPresent : PyVal → Bool
  | .str s => s != ""
  | _ => true

/-- `XMLBuilder._escape_xml`. -/
def escape_xml (value : String) : String :=
  pyReplace
    (pyReplace
      (pyReplace
        (pyReplace
          (pyReplace value "&" "&amp;")
          "<" "&lt;")
        ">" "&gt;")
      (String.mk [quoteChar]) "&quot;")
    (String.mk [apostropheChar]) "&apos;"

/-- `XMLBuilder._format_temporal_value`, string branch.  The Python function
also accepts `datetime` / `date` / `time` / `timedelta` objects; the wizard
form path hands the builder strings, and only the string branch is relevant
to the modelled behaviour.  Temporal subtypes other than `date` and `time`
return the string unchanged, as in the source. -/
def format_temporal_value (value : String) (temporal_type : String) : String :=
  if value == "" then ""
  else if temporal_type == "date" then
    let s1 := if strContains value (String.mk [spaceChar]) then
        pySplitHead value spaceChar else value
    if strContains s1 "T" then pySplitHead s1 'T' else s1
  else if temporal_type == "time" then
    let s1 := if strContains value "T" then pySplitAt1 value 'T' else value
    let s2 := if strContains s1 (String.mk [plusChar]) then
        pySplitHead s1 plusChar else s1
    if strContains s2 (String.mk [spaceChar]) then
      let s3 := pySplitAt1 s2 spaceChar
      if strContains s3 (String.mk [plusChar]) then pySplitHead s3 plusChar
      else s3
    else s2
  else value

/-- The scalar-kind → value-element-name map of
`XMLBuilder._get_value_element_name`. -/
def builderTypeMap : List (String × String) :=
  [("XdString", "xdstring-value"), ("XdBoolean", "xdboolean-value"),
   ("XdCount", "xdcount-value"), ("XdQuantity", "xdquantity-value"),
   ("XdFloat", "xdfloat-value"), ("XdDouble", "xddouble-value"),
   ("XdLink", "xdlink-value"), ("XdFile", "xdfile-value"),
   ("XdOrdinal", "xdordinal-value"), ("XdInterval", "xdinterval-value"),
   ("XdToken", "xdtoken-value")]

def temporalElementMap : List (String × String) :=
  [("date", "xdtemporal-date"), ("time", "xdtemporal-time"),
   ("datetime", "xdtemporal-datetime"), ("duration", "xdtemporal-duration"),
   ("day", "xdtemporal-day"), ("month", "xdtemporal-month"),
   ("year", "xdtemporal-year"), ("year_month", "xdtemporal-year-month"),
   ("month_day", "xdtemporal-month-day")]

/-- `XMLBuilder._get_value_element_name`: direct lookup for the scalar
kinds; for `XdTemporal` the element name is selected from the first entry of
the field's `temporal_types` list, with `xdtemporal-date` as fallback. -/
def get_value_element_name (field_type : String) (field_meta : Option FieldMeta) :
    String :=
  if field_type == "XdTemporal" then
    match field_meta with
    | some m =>
      match m.temporal_types with
      | [] => "xdtemporal-date"
      | first_type :: _ =>
        ((temporalElementMap.find? (fun p => p.1 == first_type)).map (·.2)).getD
          "xdtemporal-date"
    | none => "xdtemporal-date"
  else
    ((builderTypeMap.find? (fun p => p.1 == field_type)).map (·.2)).getD "value"

/-- Apply a text substitution to every text node of a tree (the model of a
string-level `xml_content.replace(...)`, placeholders occurring only in text
content). -/
def mapTextList (f : String → String) : ElemList → ElemList
  | .nil => .nil
  | .cons (Elem.mk t a x cs) rest =>
    .cons (Elem.mk t a (f x) (mapTextList f cs)) (mapTextList f rest)

def Elem.mapText (e : Elem) (f : String → String) : Elem :=
  match e with
  | Elem.mk t a x cs => Elem.mk t a (f x) (mapTextList f cs)

def replaceAllText (e : Elem) (needle repl : String) : Elem :=
  e.mapText (fun s => pyReplace s needle repl)

/-- `XMLBuilder._replace_metadata_placeholders`; `utcnow().isoformat()` is
the explicit `nowStr` parameter. -/
def replace_metadata_placeholders (nowStr : String) (e : Elem)
    (instance_id : String) : Elem :=
  replaceAllText
    (replaceAllText e (PLACEHOLDER_MARK ++ "creation_timestamp") nowStr)
    (PLACEHOLDER_MARK ++ "instance_id") instance_id

/-- `XMLBuilder._replace_optional_metadata`. -/
def replace_optional_metadata (e : Elem) (ct_id : String)
    (field_meta : FieldRuntimeMeta) : Elem :=
  let e1 := match field_meta.act with
    | some v => if v != "" then
        replaceAllText e (PLACEHOLDER_MARK ++ "act_" ++ ct_id) (escape_xml v)
      else e
    | none => e
  let e2 := match field_meta.vtb with
    | some v => if v != "" then
        replaceAllText e1 (PLACEHOLDER_MARK ++ "vtb_" ++ ct_id) v
      else e1
    | none => e1
  let e3 := match field_meta.vte with
    | some v => if v != "" then
        replaceAllText e2 (PLACEHOLDER_MARK ++ "vte_" ++ ct_id) v
      else e2
    | none => e2
  let e4 := match field_meta.tr with
    | some v => if v != "" then
        replaceAllText e3 (PLACEHOLDER_MARK ++ "tr_" ++ ct_id) v
      else e3
    | none => e3
  let e5 := match field_meta.mod with
    | some v => if v != "" then
        replaceAllText e4 (PLACEHOLDER_MARK ++ "modified_" ++ ct_id) v
      else e4
    | none => e4
  match field_meta.location with
  | some (lat, lon) =>
    let e6 := match lat with
      | some v => replaceAllText e5 (PLACEHOLDER_MARK ++ "latitude_" ++ ct_id) v
      | none => e5
    match lon with
    | some v => replaceAllText e6 (PLACEHOLDER_MARK ++ "longitude_" ++ ct_id) v
    | none => e6
  | none => e5

def quantified_types : List String :=
  ["XdCount", "XdQuantity", "XdFloat", "XdDouble", "XdOrdinal"]

/-- `XMLBuilder._replace_units_placeholder`: the units value comes from the
runtime metadata (`field_meta['units']`), the units ct_id and label from the
static table, looked up first under the label-derived key and then by
scanning for a matching inner `ct_id`. -/
def replace_units_placeholder (table : List (String × FieldMeta)) (e : Elem)
    (ct_id : String) (field_meta : FieldRuntimeMeta) (field_label : String)
    (field_type : String) : Elem :=
  if !(quantified_types.contains field_type) then e
  else
    match field_meta.units with
    | none => e
    | some selected_units =>
      if selected_units == "" then e
      else
        let labelKey := pyReplace (pyLower field_label) (String.mk [spaceChar]) "_"
        let field_info : Option FieldMeta :=
          match table.find? (fun p => p.1 == labelKey) with
          | some pr => some pr.2
          | none => (table.find? (fun p => p.2.ct_id == ct_id)).map (·.2)
        match field_info with
        | none => e
        | some info =>
          match info.units with
          | none => e
          | some units_info =>
            let units_ct_id := units_info.ct_id
            let units_label := units_info.label.getD (field_label ++ "_units")
            if units_ct_id == "" then e
            else
              let e1 := replaceAllText e
                (PLACEHOLDER_MARK ++ "label_" ++ units_ct_id)
                (escape_xml units_label)
              replaceAllText e1
                (PLACEHOLDER_MARK ++ "xdstring-value_" ++ units_ct_id)
                (escape_xml selected_units)

/-- `XMLBuilder._replace_field_placeholders`: iterate the static table in
insertion order, substituting the value placeholder of every field present
in `form_data` (formatted per declared type), then the optional metadata and
units placeholders. -/
def replace_field_placeholders (table : List (String × FieldMeta)) (e : Elem)
    (form_data : List (String × PyVal))
    (metadata_dict : List (String × FieldRuntimeMeta)) : Elem :=
  table.foldl
    (fun acc p =>
      let field_name := p.1
      let meta := p.2
      let ct_id := field_name
      let field_type := meta.type
      let field_label := if meta.label == "" then field_name else meta.label
      match form_data.find? (fun q => q.1 == field_name) with
      | none => acc
      | some fv =>
        let value := fv.2
        let field_meta :=
          ((metadata_dict.find? (fun q => q.1 == field_name)).map (·.2)).getD {}
        let value_elem_name := get_value_element_name field_type (some meta)
        let placeholder := PLACEHOLDER_MARK ++ value_elem_name ++ "_" ++ ct_id
        let acc1 :=
          if pyValPresent value then
            let formatted_value :=
              if field_type == "XdBoolean" then
                if pyTruthy value then "true" else "false"
              else if field_type == "XdTemporal" then
                let temporal_types :=
                  if meta.temporal_types.isEmpty then ["date"]
                  else meta.temporal_types
                let temporal_type := temporal_types.headD "date"
                escape_xml (format_temporal_value (pyStr value) temporal_type)
              else escape_xml (pyStr value)
            replaceAllText acc placeholder formatted_value
          else acc
        let acc2 := replace_optional_metadata acc1 ct_id field_meta
        replace_units_placeholder table acc2 ct_id field_meta field_label
          field_type)
    e

/-- Assoc-list update with Python dict assignment semantics. -/
def assocSet {β : Type} (l : List (String × β)) (k : String) (v : β) :
    List (String × β) :=
  if (l.find? (fun p => p.1 == k)).isSome then
    l.map (fun p => if p.1 == k then (k, v) else p)
  else l ++ [(k, v)]

/-- The `ev_map` of `_process_ev_and_prune`: ct_id → EV code, for every field
whose runtime metadata selects a code listed in `EV_CODES`. -/
def buildEvMap (table : List (String × FieldMeta))
    (metadata_dict : List (String × FieldRuntimeMeta)) :
    List (String × String) :=
  table.foldl
    (fun acc p =>
      match ((metadata_dict.find? (fun q => q.1 == p.1)).map (·.2)).bind (·.ev) with
      | some ev_code =>
        if ev_code != "" && (EV_CODES.find? (fun q => q.1 == ev_code)).isSome then
          assocSet acc p.2.ct_id ev_code
        else acc
      | none => acc)
    []

/-- `XMLBuilder._process_ev_placeholders`: replace every descendant
`ev-placeholder` whose `ct_id` attribute is in the map by the namespaced EV
element `<sdc4:CODE><ev-name>fixed name</ev-name></sdc4:CODE>` at the same
position, and delete every other `ev-placeholder`.  The value element is not
touched.  (Nested `ev-placeholder`s do not occur: the skeleton carries one
placeholder per component.) -/
def processEvList (ev_map : List (String × String)) : ElemList → ElemList
  | .nil => .nil
  | .cons (Elem.mk t a x cs) rest =>
    if t == "ev-placeholder" then
      match (Elem.mk t a x cs).getAttr "ct_id" with
      | some ct_id =>
        if ct_id != "" then
          match ev_map.find? (fun p => p.1 == ct_id) with
          | some pr =>
            let ev_code := pr.2
            let ev_name :=
              ((EV_CODES.find? (fun p => p.1 == ev_code)).map (·.2)).getD ev_code
            .cons (el (nsTag ev_code) [] "" [el "ev-name" [] ev_name []])
              (processEvList ev_map rest)
          | none => processEvList ev_map rest
        else processEvList ev_map rest
      | none => processEvList ev_map rest
    else .cons (Elem.mk t a x (processEvList ev_map cs)) (processEvList ev_map rest)

/-- `XMLBuilder.REQUIRED_ELEMENTS_DEFAULTS`; the generated timestamp and cuid
are the explicit parameters. -/
def requiredDefault (nowStr cuid tagName : String) : Option String :=
  if tagName == "creation_timestamp" then some nowStr
  else if tagName == "instance_id" then some ("i-" ++ cuid)
  else if tagName == "instance_version" then some "1.0"
  else if tagName == "current-state" then some ""
  else none

def optionalCommentMark : String := "<!-- Optional:"

/-- `XMLBuilder._find_placeholder_elements` combined with the removal loop of
`_process_ev_and_prune`: an element whose own text still contains the
placeholder token is given its default text when its local tag is required,
is removed (subtree and all) when its local tag is optional, and is kept
otherwise; after the recursion an element whose text contains the
comment-style marker is removed.  Comment nodes are skipped. -/
def pruneList (nowStr cuid : String) : ElemList → ElemList
  | .nil => .nil
  | .cons (Elem.mk t a x cs) rest =>
    if t == "#comment" then .cons (Elem.mk t a x cs) (pruneList nowStr cuid rest)
    else
      let tagName := stripNamespace t
      if strContains x PLACEHOLDER_MARK then
        match requiredDefault nowStr cuid tagName with
        | some d =>
          if strContains d optionalCommentMark then pruneList nowStr cuid rest
          else .cons (Elem.mk t a d (pruneList nowStr cuid cs))
            (pruneList nowStr cuid rest)
        | none =>
          if OPTIONAL_ELEMENTS.contains tagName then pruneList nowStr cuid rest
          else if strContains x optionalCommentMark then pruneList nowStr cuid rest
          else .cons (Elem.mk t a x (pruneList nowStr cuid cs))
            (pruneList nowStr cuid rest)
      else if strContains x optionalCommentMark then pruneList nowStr cuid rest
      else .cons (Elem.mk t a x (pruneList nowStr cuid cs))
        (pruneList nowStr cuid rest)

/-- The pruning pass at the root: the root has no parent, so a removal mark
on it is a no-op and only its text default and its children's pruning
apply. -/
def pruneTop (nowStr cuid : String) : Elem → Elem
  | Elem.mk t a x cs =>
    let tagName := stripNamespace t
    let x' :=
      if strContains x PLACEHOLDER_MARK then
        (requiredDefault nowStr cuid tagName).getD x
      else x
    Elem.mk t a x' (pruneList nowStr cuid cs)

/-- `XMLBuilder._is_empty_container`, fused over child lists.  A container is
empty when it has no children and its stripped text is empty or a comment,
or when every non-comment child has no meaningful text (non-empty, not a
comment, not a placeholder) and is itself empty. -/
def is_empty_children : ElemList → Bool
  | .nil => true
  | .cons (Elem.mk t _ x cs) rest =>
    if t == "#comment" then is_empty_children rest
    else
      let child_text := pyStrip x
      let subEmpty := is_empty_children cs
      if child_text != "" && !(strStarts child_text "<!--") &&
          !(strContains child_text PLACEHOLDER_MARK) then false
      else
        let childEmpty :=
          match cs with
          | .nil => pyStrip x == "" || strStarts (pyStrip x) "<!--"
          | .cons _ _ => subEmpty
        if !childEmpty then false else is_empty_children rest

def is_empty_container (e : Elem) : Bool :=
  match e.children with
  | .nil => pyStrip e.text == "" || strStarts (pyStrip e.text) "<!--"
  | cs => is_empty_children cs

/-- `XMLBuilder._prune_empty_containers` for one container tag. -/
def removeEmptyContainersList (containerName : String) : ElemList → ElemList
  | .nil => .nil
  | .cons (Elem.mk t a x cs) rest =>
    if t == containerName && is_empty_container (Elem.mk t a x cs) then
      removeEmptyContainersList containerName rest
    else
      .cons (Elem.mk t a x (removeEmptyContainersList containerName cs))
        (removeEmptyContainersList containerName rest)

def prune_empty_containers (e : Elem) : Elem :=
  OPTIONAL_CONTAINER_ELEMENTS.foldl
    (fun acc name => acc.withChildren (removeEmptyContainersList name acc.children))
    e

/-- `XMLBuilder._remove_comments`. -/
def removeCommentsList : ElemList → ElemList
  | .nil => .nil
  | .cons (Elem.mk t a x cs) rest =>
    if t == "#comment" then removeCommentsList rest
    else .cons (Elem.mk t a x (removeCommentsList cs)) (removeCommentsList rest)

/-- `XMLBuilder._process_ev_and_prune`: EV-placeholder processing, pruning of
unreplaced placeholders, empty-container removal and comment removal; the
serialize/re-parse cycle is the identity on the tree. -/
def process_ev_and_prune (nowStr cuid : String)
    (table : List (String × FieldMeta))
    (metadata_dict : List (String × FieldRuntimeMeta)) (root : Elem) : Elem :=
  let ev_map := buildEvMap table metadata_dict
  let r1 := root.withChildren (processEvList ev_map root.children)
  let r2 := pruneTop nowStr cuid r1
  let r3 := prune_empty_containers r2
  r3.withChildren (removeCommentsList r3.children)

/-- `XMLBuilder.build_from_form` on the parsed skeleton: metadata
substitution, field substitution, then the EV/pruning pass. -/
def build_from_form (nowStr cuid : String) (table : List (String × FieldMeta))
    (skeleton : Elem) (instance_id : String)
    (form_data : List (String × PyVal))
    (metadata_dict : List (String × FieldRuntimeMeta)) : Elem :=
  let x1 := replace_metadata_placeholders nowStr skeleton instance_id
  let x2 := replace_field_placeholders table x1 form_data metadata_dict
  process_ev_and_prune nowStr cuid table metadata_dict x2

/-!
## Query-oriented JSON Extractor (`json_extractor.py`)
-/

/-- A JSON scalar as produced by the two `_parse_value` routines.  Floating
point is kept uninterpreted: `.dec raw` records the literal text that
Python's `float()` accepted; no claim depends on float arithmetic. -/
inductive JVal where
  | b (x : Bool)
  | i (n : Int)
  | dec (raw : String)
  | s (x : String)
deriving Repr, DecidableEq

/-- Python `int(text)` for the ASCII decimal literals the pipeline handles:
optional surrounding whitespace, optional sign, one or more digits.  (Python
additionally accepts digit-group underscores and non-ASCII digits, which
never occur in this data.) -/
def pyParseInt (s : String) : Option Int :=
  let l := (s.data.dropWhile isPyWhitespace).reverse.dropWhile isPyWhitespace
    |>.reverse
  let core :=
    match l with
    | c :: rest =>
      if c == plusChar then some (1, rest)
      else if c == minusChar then some (-1, rest)
      else some (1, l)
    | [] => none
  match core with
  | none => none
  | some (sign, digits) =>
    if digits.isEmpty || !(digits.all Char.isDigit) then none
    else some (sign * (digits.foldl (fun a c => a * 10 + ((c.toNat : Int) - 48)) 0))

/-- Does Python `float(text)` accept the string?  Recognizes optional
whitespace and sign, `inf` / `infinity` / `nan` (any case), and a decimal
mantissa with optional fraction and exponent. -/
def pyFloatExponentOk (l : List Char) : Bool :=
  match l with
  | [] => true
  | c :: rest =>
    (c == 'e' || c == 'E') &&
      (let rest2 :=
        match rest with
        | d :: ds => if d == plusChar || d == minusChar then ds else rest
        | [] => rest
      !rest2.isEmpty && rest2.all Char.isDigit)

def pyFloatBodyOk (l : List Char) : Bool :=
  let low := String.mk (l.map Char.toLower)
  if low == "inf" || low == "infinity" || low == "nan" then true
  else
    let d1 := l.takeWhile Char.isDigit
    let r1 := l.dropWhile Char.isDigit
    match r1 with
    | c :: rest =>
      if c == dotChar then
        let d2 := rest.takeWhile Char.isDigit
        let r2 := rest.dropWhile Char.isDigit
        (!d1.isEmpty || !d2.isEmpty) && pyFloatExponentOk r2
      else !d1.isEmpty && pyFloatExponentOk r1
    | [] => !d1.isEmpty

def pyParseFloatOk (s : String) : Bool :=
  let l := (s.data.dropWhile isPyWhitespace).reverse.dropWhile isPyWhitespace
    |>.reverse
  match l with
  | [] => false
  | c :: rest =>
    if c == plusChar || c == minusChar then pyFloatBodyOk rest
    else pyFloatBodyOk l

/-- `JSONExtractor._parse_value`: type-sniffing decode — boolean literal,
else integer when no dot is present, else float, else string. -/
def parse_value_query (value_str : String) : JVal :=
  if pyLower value_str == "true" || pyLower value_str == "false" then
    .b (pyLower value_str == "true")
  else if !(strContains value_str (String.mk [dotChar])) then
    match pyParseInt value_str with
    | some n => .i n
    | none => if pyParseFloatOk value_str then .dec value_str else .s value_str
  else if pyParseFloatOk value_str then .dec value_str
  else .s value_str

/-- `str()` of a decoded value, as used to build `search_text`.  For the
uninterpreted float case the accepted literal stands in for Python's float
repr. -/
def pyStrJVal : JVal → String
  | .b x => if x then "True" else "False"
  | .i n => toString n
  | .dec raw => raw
  | .s x => x

/-- `JSONExtractor.VALUE_ELEMENT_NAMES`, in source order (the order matters:
the first name that matches a descendant wins). -/
def VALUE_ELEMENT_NAMES : List String :=
  ["xdstring-value", "xdboolean-value", "xdcount-value", "xdquantity-value",
   "xdfloat-value", "xddouble-value", "xdlink-value", "xdfile-value",
   "xdordinal-value", "xdtemporal-date", "xdtemporal-time",
   "xdtemporal-datetime", "xdtemporal-duration", "xdtemporal-day",
   "xdtemporal-month", "xdtemporal-year", "xdtemporal-year-month",
   "xdtemporal-month-day"]

/-- One record of the query projection's `fields` map
(`JSONExtractor._extract_field` output); an absent dictionary key is `none`.
The location pair keeps the raw latitude/longitude texts (Python converts
them with `float`, which is left uninterpreted). -/
structure FieldRecord where
  label : Option String := none
  value : Option JVal := none
  units : Option String := none
  exceptional_value : Option String := none
  valid_time_begin : Option String := none
  valid_time_end : Option String := none
  location : Option (String × String) := none
deriving Repr, DecidableEq

/-- The fall-through part of `_extract_field` (no exceptional value with
non-empty text): value from the first matching value-element name, units,
valid-time bounds and location. -/
def extract_field_rest (e : Elem) (r1 : FieldRecord) : FieldRecord :=
  let value_text :=
    VALUE_ELEMENT_NAMES.findSome?
      (fun name =>
        match e.findDesc name with
        | some ve => if ve.text != "" then some ve.text else none
        | none => none)
  let r2 :=
    match value_text with
    | some vt => { r1 with value := some (parse_value_query vt) }
    | none => r1
  let r3 :=
    match e.findDesc "units" with
    | some u => if u.text != "" then { r2 with units := some u.text } else r2
    | none => r2
  let r4 :=
    match e.findDesc "valid-time-begin" with
    | some u => if u.text != "" then { r3 with valid_time_begin := some u.text }
      else r3
    | none => r3
  let r5 :=
    match e.findDesc "valid-time-end" with
    | some u => if u.text != "" then { r4 with valid_time_end := some u.text }
      else r4
    | none => r4
  match e.findDesc "location" with
  | some loc =>
    match loc.findDesc "latitude", loc.findDesc "longitude" with
    | some la, some lo => { r5 with location := some (la.text, lo.text) }
    | _, _ => r5
  | none => r5

/-- `JSONExtractor._extract_field`: label, then the exceptional value (a
non-empty `exceptional-value` descendant short-circuits everything else),
then value/units/valid-time/location; `none` when the record stays empty. -/
def extract_field (e : Elem) : Option FieldRecord :=
  let r1 : FieldRecord :=
    match e.findDesc "label" with
    | some l => if l.text != "" then { label := some l.text } else {}
    | none => {}
  let r :=
    match e.findDesc "exceptional-value" with
    | some ev =>
      if ev.text != "" then { r1 with exceptional_value := some ev.text }
      else extract_field_rest e r1
    | none => extract_field_rest e r1
  if r == ({} : FieldRecord) then none else some r

/-- The body of `_extract_fields_recursive` for one element: when the tag is
`ms-*` and the element has a value-element or `exceptional-value` descendant,
extract the record, store it under the ct_id and extend the search text. -/
def stepField (e : Elem) (acc : List (String × FieldRecord) × List String) :
    List (String × FieldRecord) × List String :=
  let tag_name := stripNamespace e.tag
  if strStarts tag_name "ms-" then
    let ct_id := String.mk (tag_name.data.drop 3)
    let has_value :=
      VALUE_ELEMENT_NAMES.any (fun n => (e.findDesc n).isSome) ||
        (e.findDesc "exceptional-value").isSome
    if has_value && ct_id != "" then
      match extract_field e with
      | some fd =>
        let parts1 :=
          match fd.value with
          | some v => acc.2 ++ [pyStrJVal v]
          | none => acc.2
        let parts2 :=
          match fd.label with
          | some l => parts1 ++ [l]
          | none => parts1
        (assocSet acc.1 ct_id fd, parts2)
      | none => acc
    else acc
  else acc

/-- `_extract_fields_recursive` over the tree in preorder. -/
def extractFieldsList :
    ElemList → List (String × FieldRecord) × List String →
      List (String × FieldRecord) × List String
  | .nil, acc => acc
  | .cons (Elem.mk t a x cs) rest, acc =>
    let acc1 := stepField (Elem.mk t a x cs) acc
    let acc2 := extractFieldsList cs acc1
    extractFieldsList rest acc2

/-- `JSONExtractor._extract_metadata`. -/
def extract_metadata_query (tree : Elem) : List (String × String) :=
  let m0 :=
    match tree.getAttr "instance-id" with
    | some v => [("instance_id", v)]
    | none => []
  ["dm-label", "dm-language", "dm-encoding", "creation_timestamp",
   "instance_version", "current-state"].foldl
    (fun acc f =>
      match tree.findDesc f with
      | some elm =>
        if elm.text != "" then assocSet acc (pyReplace f "-" "_") elm.text
        else acc
      | none => acc)
    m0

/-- Python `" ".join(parts)`. -/
def joinSpace : List String → String
  | [] => ""
  | h :: t => t.foldl (fun a b => a ++ String.mk [spaceChar] ++ b) h

structure QueryResult where
  metadata : List (String × String)
  fields : List (String × FieldRecord)
  search_text : String
deriving Repr, DecidableEq

/-- `JSONExtractor.extract`, with parsing abstracted by `parseXml`: the empty
result on a `ParseError`, otherwise metadata, the recursively extracted
fields and the space-joined search text. -/
def json_extract (parseXml : String → Option Elem) (xml_content : String) :
    QueryResult :=
  match parseXml xml_content with
  | none => { metadata := [], fields := [], search_text := "" }
  | some tree =>
    let fp := extractFieldsList (.cons tree .nil) ([], [])
    { metadata := extract_metadata_query tree
      fields := fp.1
      search_text := joinSpace fp.2 }

/-!
## Clean JSON Instance Generator (`json_instance_generator.py`)
-/

/-- The EV code list of `json_instance_generator.py` / `rdf_extractor.py`. -/
def EV_CODE_LIST : List String :=
  ["NI", "MSK", "INV", "DER", "UNC", "OTH", "NINF", "PINF",
   "ASKR", "NASK", "NAV", "NA", "TRC", "ASKU", "UNK", "QS"]

/-- One record of the clean projection (`value`, `units`, `ev`; absent keys
are `none`). -/
structure CleanField where
  value : Option JVal := none
  units : Option String := none
  ev : Option String := none
deriving Repr, DecidableEq

/-- `JSONInstanceGenerator._parse_value`: type-driven decode by the declared
field type. -/
def parse_value_clean (value_str : String) (field_type : String) : JVal :=
  if field_type == "XdBoolean" then .b (pyLower value_str == "true")
  else if field_type == "XdCount" || field_type == "XdOrdinal" then
    match pyParseInt value_str with
    | some n => .i n
    | none => .s value_str
  else if field_type == "XdQuantity" || field_type == "XdFloat" ||
      field_type == "XdDouble" then
    if pyParseFloatOk value_str then .dec value_str else .s value_str
  else .s value_str

/-- The type → value-element map of `JSONInstanceGenerator._extract_value`
(nine scalar kinds; `XdTemporal` is handled by the variant list). -/
def cleanTypeToElem : List (String × String) :=
  [("XdString", "xdstring-value"), ("XdBoolean", "xdboolean-value"),
   ("XdCount", "xdcount-value"), ("XdQuantity", "xdquantity-value"),
   ("XdFloat", "xdfloat-value"), ("XdDouble", "xddouble-value"),
   ("XdLink", "xdlink-value"), ("XdFile", "xdfile-value"),
   ("XdOrdinal", "xdordinal-value")]

def temporalElemNames : List String :=
  ["xdtemporal-date", "xdtemporal-time", "xdtemporal-datetime",
   "xdtemporal-duration", "xdtemporal-day", "xdtemporal-month",
   "xdtemporal-year", "xdtemporal-year-month", "xdtemporal-month-day"]

/-- `JSONInstanceGenerator._extract_ev`: first direct child whose stripped
tag is an EV code. -/
def extract_ev_clean : List Elem → Option String
  | [] => none
  | c :: rest =>
    let tg := stripNamespace c.tag
    if EV_CODE_LIST.contains tg then some tg else extract_ev_clean rest

/-- `JSONInstanceGenerator._extract_value`: temporal fields try every
temporal variant element (skipping placeholder text and returning the raw
string), other fields use the declared type's element and the type-driven
decode; placeholder text yields `none`. -/
def extract_value_clean (e : Elem) (field_type : String) : Option JVal :=
  if field_type == "XdTemporal" then
    (temporalElemNames.findSome?
      (fun nm =>
        match e.findDesc nm with
        | some ve =>
          if ve.text != "" && !(strStarts ve.text PLACEHOLDER_MARK) then
            some ve.text
          else none
        | none => none)).map .s
  else
    let value_elem_name :=
      ((cleanTypeToElem.find? (fun p => p.1 == field_type)).map (·.2)).getD "value"
    match e.findDesc value_elem_name with
    | some ve =>
      if ve.text == "" then none
      else if strStarts ve.text PLACEHOLDER_MARK then none
      else some (parse_value_clean ve.text field_type)
    | none => none

def unitsElemNames : List (String × String) :=
  [("XdCount", "xdcount-units"), ("XdQuantity", "xdquantity-units"),
   ("XdFloat", "xdfloat-units"), ("XdDouble", "xddouble-units"),
   ("XdOrdinal", "xdordinal-units")]

/-- `JSONInstanceGenerator._extract_units_value`: for quantified types, the
non-placeholder `xdstring-value` text inside the type's units element. -/
def extract_units_value_clean (e : Elem) (field_type : String) : Option String :=
  if !(quantified_types.contains field_type) then none
  else
    match (unitsElemNames.find? (fun p => p.1 == field_type)).map (·.2) with
    | none => none
    | some units_elem_name =>
      match e.findDesc units_elem_name with
      | none => none
      | some units_elem =>
        match units_elem.findDesc "xdstring-value" with
        | none => none
        | some ve =>
          if ve.text == "" then none
          else if strStarts ve.text PLACEHOLDER_MARK then none
          else some ve.text

/-- `JSONInstanceGenerator._extract_field_data`: ev, value and units for one
component; `none` when nothing is present. -/
def extract_field_data_clean (e : Elem) (field_type : String) :
    Option CleanField :=
  let fd0 : CleanField := {}
  let fd1 :=
    match extract_ev_clean e.children.toList with
    | some ev => { fd0 with ev := some ev }
    | none => fd0
  let fd2 :=
    match extract_value_clean e field_type with
    | some v => { fd1 with value := some v }
    | none => fd1
  let fd3 :=
    match extract_units_value_clean e field_type with
    | some u => { fd2 with units := some u }
    | none => fd2
  if fd3 == ({} : CleanField) then none else some fd3

/-- `JSONInstanceGenerator._extract_fields` over `root.iter()` preorder:
every `ms-*` element whose ct_id is known to the table contributes a record
keyed by the field's label. -/
def extractFieldsCleanList (table : List (String × FieldMeta)) :
    ElemList → List (String × CleanField) → List (String × CleanField)
  | .nil, acc => acc
  | .cons (Elem.mk t a x cs) rest, acc =>
    let tg := stripNamespace t
    let acc1 :=
      if strStarts tg "ms-" then
        let ct_id := pyReplace tg "ms-" ""
        match table.find? (fun p => p.1 == ct_id) with
        | some pr =>
          let field_name := if pr.2.label == "" then ct_id else pr.2.label
          let field_type := if pr.2.type == "" then "XdString" else pr.2.type
          match extract_field_data_clean (Elem.mk t a x cs) field_type with
          | some fd => assocSet acc field_name fd
          | none => acc
        | none => acc
      else acc
    let acc2 := extractFieldsCleanList table cs acc1
    extractFieldsCleanList table rest acc2

/-- `JSONInstanceGenerator._extract_metadata`: the dm ct_id from the root tag
plus `dm-label` / `creation_timestamp` / `instance_id` from the direct
children. -/
def extract_metadata_clean (root : Elem) : List (String × String) :=
  let tag_name := stripNamespace root.tag
  let m0 :=
    if strStarts tag_name "dm-" then
      [("dm_ct_id", pyReplace tag_name "dm-" "")]
    else []
  root.children.toList.foldl
    (fun acc c =>
      let tg := stripNamespace c.tag
      let key :=
        if tg == "dm-label" then some "dm_label"
        else if tg == "creation_timestamp" then some "created_at"
        else if tg == "instance_id" then some "instance_id"
        else none
      match key with
      | some k => if c.text != "" then assocSet acc k c.text else acc
      | none => acc)
    m0

/-- `JSONInstanceGenerator.generate` with parsing abstracted: `none` models
the empty dictionary returned on a `ParseError`; otherwise the clean
`{metadata, fields}` structure. -/
def json_instance_generate (parseXml : String → Option Elem)
    (table : List (String × FieldMeta)) (xml_content : String) :
    Option (List (String × String) × List (String × CleanField)) :=
  match parseXml xml_content with
  | none => none
  | some root =>
    some (extract_metadata_clean root, extractFieldsCleanList table (.cons root .nil) [])

/-!
## RDF 1.2 Triple-Term Extractor (`rdf_extractor.py`)
-/

def PREFIXES : String :=
  "@prefix rdf: <http://www.w3.org/1999/02/22-rdf-syntax-ns#> .\n" ++
  "@prefix rdfs: <http://www.w3.org/2000/01/rdf-schema#> .\n" ++
  "@prefix xsd: <http://www.w3.org/2001/XMLSchema#> .\n" ++
  "@prefix dc: <http://purl.org/dc/elements/1.1/> .\n" ++
  "@prefix sdc4: <https://semanticdatacharter.com/ns/sdc4/> .\n" ++
  "@prefix dm: <https://semanticdatacharter.com/ns/dm/> .\n" ++
  "@prefix : <https://semanticdatacharter.com/ns/dm/> .\n\n"

def XSD_DATATYPES : List (String × String) :=
  [("XdString", "xsd:string"), ("XdBoolean", "xsd:boolean"),
   ("XdCount", "xsd:integer"), ("XdOrdinal", "xsd:integer"),
   ("XdQuantity", "xsd:decimal"), ("XdFloat", "xsd:float"),
   ("XdDouble", "xsd:double"), ("XdTemporal", "xsd:dateTime"),
   ("XdLink", "xsd:anyURI"), ("XdFile", "xsd:base64Binary")]

/-- `RDFExtractor.VALUE_ELEMENTS` (XdTemporal handled via the variant
list). -/
def RDF_VALUE_ELEMENTS : List (String × String) :=
  [("XdString", "xdstring-value"), ("XdBoolean", "xdboolean-value"),
   ("XdCount", "xdcount-value"), ("XdOrdinal", "xdordinal-value"),
   ("XdQuantity", "xdquantity-value"), ("XdFloat", "xdfloat-value"),
   ("XdDouble", "xddouble-value"), ("XdLink", "xdlink-value"),
   ("XdFile", "xdfile-value")]

/-- `RDFExtractor._escape_turtle`: escape backslash, double quote, LF, CR and
TAB, in that order. -/
def escape_turtle (value : String) : String :=
  pyReplace
    (pyReplace
      (pyReplace
        (pyReplace
          (pyReplace value (String.mk [backslashChar])
            (String.mk [backslashChar, backslashChar]))
          (String.mk [quoteChar]) (String.mk [backslashChar, quoteChar]))
        (String.mk [lfChar]) (String.mk [backslashChar, 'n']))
      (String.mk [crChar]) (String.mk [backslashChar, 'r']))
    (String.mk [tabChar]) (String.mk [backslashChar, 't'])

/-- Python `line.rstrip(" ;")`: drop trailing spaces and semicolons. -/
def rstripSemiSpace (s : String) : String :=
  String.mk ((s.data.reverse.dropWhile
    (fun c => c == spaceChar || c == semicolonChar)).reverse)

/-- `lines[-1] = lines[-1].rstrip(" ;") + " ."` on a non-empty line list. -/
def closeTurtleBlock (lines : List String) : List String :=
  match lines.reverse with
  | [] => []
  | last :: front => (front.reverse) ++ [rstripSemiSpace last ++ " ."]

def quoteStr (s : String) : String :=
  String.mk [quoteChar] ++ s ++ String.mk [quoteChar]

/-- `RDFExtractor._generate_instance_metadata`. -/
def generate_instance_metadata (dm_ct_id dm_label : String) (tree : Elem)
    (instance_id validation_status : String)
    (auto_corrected_fields : List String) : List String :=
  let lines :=
    ["# Instance: " ++ instance_id,
     "sdc4:" ++ instance_id ++ " a sdc4:dm-" ++ dm_ct_id ++ " ;",
     "    rdfs:label " ++ quoteStr (escape_turtle dm_label) ++ " ;"]
  let lines :=
    match tree.findDesc "creation_timestamp" with
    | some ts =>
      if ts.text != "" then
        lines ++ ["    dc:created " ++ quoteStr ts.text ++ "^^xsd:dateTime ;"]
      else lines
    | none => lines
  let lines := lines ++ ["    sdc4:validationStatus " ++ quoteStr validation_status ++ " ;"]
  let lines := lines ++ auto_corrected_fields.map
    (fun fl => "    sdc4:autoCorrectedField " ++ quoteStr (escape_turtle fl) ++ " ;")
  closeTurtleBlock lines ++ [""]

/-- `RDFExtractor._find_cluster_ct_id`: first direct child with an `ms-*`
stripped tag. -/
def find_cluster_ct_id (tree : Elem) : Option String :=
  tree.children.toList.findSome?
    (fun c =>
      let tg := stripNamespace c.tag
      if strStarts tg "ms-" then some (pyReplace tg "ms-" "") else none)

/-- `RDFExtractor._find_ev_element`: first direct child whose stripped tag is
an EV code. -/
def find_ev_element (e : Elem) : Option Elem :=
  e.children.toList.find? (fun c => EV_CODE_LIST.contains (stripNamespace c.tag))

def find_units_element (e : Elem) (field_type : String) : Option Elem :=
  match (unitsElemNames.find? (fun p => p.1 == field_type)).map (·.2) with
  | some nm => e.findDesc nm
  | none => none

/-- The literal-formatting fragment of
`RDFExtractor._extract_component_triple_term` (lines 304–311): booleans are
lowercased and unquoted, integer and decimal kinds are emitted verbatim and
unquoted, everything else is quoted after Turtle escaping. -/
def value_literal (field_type value : String) : String :=
  if field_type == "XdBoolean" then pyLower value
  else if field_type == "XdCount" || field_type == "XdOrdinal" then value
  else if field_type == "XdQuantity" || field_type == "XdFloat" ||
      field_type == "XdDouble" then value
  else quoteStr (escape_turtle value)

/-- A `find desc, text non-empty and not a placeholder` metadata line, shared
by the vtb/vte/tr/modified emitters. -/
def metadataTimeLine (e : Elem) (elemName prop : String) : List String :=
  match e.findDesc elemName with
  | some m =>
    if m.text != "" && !(strStarts m.text "__PLACEHOLDER__") then
      ["    sdc4:" ++ prop ++ " " ++ quoteStr m.text ++ "^^xsd:dateTime ;"]
    else []
  | none => []

/-- `RDFExtractor._extract_component_triple_term`. -/
def extract_component_triple_term (table : List (String × FieldMeta))
    (dm_ct_id : String) (e : Elem) (ct_id instance_id instance_cuid : String)
    (cluster_ct_id : Option String) : List String :=
  match table.find? (fun p => p.1 == ct_id) with
  | none => []
  | some pr =>
    let meta := pr.2
    let field_name := if meta.label == "" then ct_id else meta.label
    let field_type := if meta.type == "" then "XdString" else meta.type
    let field_label := if meta.label == "" then field_name else meta.label
    let adapter_ct_id := meta.adapter_ctid
    let valuePair : Option (String × String) :=
      if field_type == "XdTemporal" then
        temporalElemNames.findSome?
          (fun nm =>
            match e.findDesc nm with
            | some ve => if ve.text != "" then some (nm, ve.text) else none
            | none => none)
      else
        let nm := ((RDF_VALUE_ELEMENTS.find? (fun p => p.1 == field_type)).map
          (·.2)).getD "value"
        match e.findDesc nm with
        | some ve => if ve.text != "" then some (nm, ve.text) else none
        | none => none
    let ev_code := (find_ev_element e).map (fun ev => stripNamespace ev.tag)
    if valuePair.isNone && ev_code.isNone then []
    else
      let reifier_uri := ":v_" ++ ct_id ++ "_" ++ instance_cuid
      let lines := ["# " ++ field_label ++ " (" ++ field_type ++ ")"]
      let lines :=
        match valuePair with
        | some (value_elem_name, value) =>
          lines ++ [reifier_uri ++ " rdf:reifies << sdc4:mc-" ++ ct_id ++
            " sdc4:" ++ value_elem_name ++ " " ++ value_literal field_type value ++
            " >> ;"]
        | none => lines ++ [reifier_uri ++ " a sdc4:ExceptionalValueStatement ;"]
      let lines := lines ++
        ["    sdc4:inInstance sdc4:" ++ instance_id ++ " ;",
         "    sdc4:inDataModel sdc4:dm-" ++ dm_ct_id ++ " ;"]
      let lines :=
        match cluster_ct_id with
        | some c => if c != "" then lines ++ ["    sdc4:inCluster sdc4:mc-" ++ c ++ " ;"]
          else lines
        | none => lines
      let lines :=
        match adapter_ct_id with
        | some ad => if ad != "" then
            lines ++ ["    sdc4:throughAdapter sdc4:mc-" ++ ad ++ " ;"]
          else lines
        | none => lines
      let lines := lines ++ ["    rdfs:label " ++ quoteStr (escape_turtle field_label) ++ " ;"]
      let lines :=
        match find_units_element e field_type with
        | some ue =>
          match ue.findDesc "xdstring-value" with
          | some uv =>
            if uv.text != "" then
              lines ++ ["    sdc4:units " ++ quoteStr (escape_turtle uv.text) ++ " ;"]
            else lines
          | none => lines
        | none => lines
      let lines :=
        match ev_code with
        | some c => lines ++ ["    sdc4:ev sdc4:" ++ c ++ " ;"]
        | none => lines
      let lines := lines ++ metadataTimeLine e "vtb" "vtb"
      let lines := lines ++ metadataTimeLine e "vte" "vte"
      let lines := lines ++ metadataTimeLine e "tr" "tr"
      let lines := lines ++ metadataTimeLine e "modified" "modified"
      let lines :=
        match e.findDesc "latitude", e.findDesc "longitude" with
        | some la, some lo =>
          if la.text != "" && !(strStarts la.text "__PLACEHOLDER__") &&
              lo.text != "" && !(strStarts lo.text "__PLACEHOLDER__") then
            lines ++
              ["    sdc4:latitude " ++ quoteStr la.text ++ "^^xsd:decimal ;",
               "    sdc4:longitude " ++ quoteStr lo.text ++ "^^xsd:decimal ;"]
          else lines
        | _, _ => lines
      let lines :=
        match e.findDesc "act" with
        | some am =>
          if am.text != "" && !(strStarts am.text "__PLACEHOLDER__") then
            lines ++ ["    sdc4:act " ++ quoteStr (escape_turtle am.text) ++ " ;"]
          else lines
        | none => lines
      closeTurtleBlock lines ++ [""]

/-- The per-component walk of `RDFExtractor.extract` over `tree.iter()`. -/
def rdfComponentsList (table : List (String × FieldMeta)) (dm_ct_id : String)
    (instance_id instance_cuid : String) (cluster_ct_id : Option String) :
    ElemList → List String → List String
  | .nil, acc => acc
  | .cons (Elem.mk t a x cs) rest, acc =>
    let tg := stripNamespace t
    let acc1 :=
      if strStarts tg "ms-" then
        let ct_id := pyReplace tg "ms-" ""
        if (table.find? (fun p => p.1 == ct_id)).isSome then
          acc ++ extract_component_triple_term table dm_ct_id (Elem.mk t a x cs)
            ct_id instance_id instance_cuid cluster_ct_id
        else acc
      else acc
    let acc2 := rdfComponentsList table dm_ct_id instance_id instance_cuid
      cluster_ct_id cs acc1
    rdfComponentsList table dm_ct_id instance_id instance_cuid cluster_ct_id
      rest acc2

def joinNl : List String → String
  | [] => ""
  | h :: t => t.foldl (fun a b => a ++ "\n" ++ b) h

/-- `RDFExtractor.extract` with parsing abstracted: the empty string on a
`ParseError`, otherwise the prefix block, the instance metadata block and
one triple-term block per known component that carries a value or EV. -/
def rdf_extract (parseXml : String → Option Elem) (dm_ct_id dm_label : String)
    (table : List (String × FieldMeta)) (xml_content instance_id : String)
    (validation_status : String) (auto_corrected_fields : List String) :
    String :=
  match parseXml xml_content with
  | none => ""
  | some tree =>
    let instance_cuid := pyReplace (pyReplace instance_id "i-" "") "ev-" ""
    let lines := [PREFIXES] ++
      generate_instance_metadata dm_ct_id dm_label tree instance_id
        validation_status auto_corrected_fields
    let cluster_ct_id := find_cluster_ct_id tree
    let lines := rdfComponentsList table dm_ct_id instance_id instance_cuid
      cluster_ct_id (.cons tree .nil) lines
    joinNl lines

/-!
## Spec-side definitions used to state the claims
-/

/-- Does the lowercased message mention one of the given words?  (The
predicate the spec's EV-selection heuristic is phrased with.) -/
def mentionsAny (msg : String) (ws : List String) : Bool :=
  ws.any (fun w => strContains (pyLower msg) w)

/-- The six kinds the spec's literal-quoting law lists as emitted unquoted. -/
def unquotedKinds : List String :=
  ["XdBoolean", "XdCount", "XdOrdinal", "XdQuantity", "XdFloat", "XdDouble"]

/-- The escape table a Turtle reader inverts inside a double-quoted literal. -/
def turtleUnescChar (c : Char) : Option Char :=
  if c == backslashChar then some backslashChar
  else if c == quoteChar then some quoteChar
  else if c == 'n' then some lfChar
  else if c == 'r' then some crChar
  else if c == 't' then some tabChar
  else none

/-- A Turtle double-quoted-literal scanner: consume characters up to the
first unescaped closing quote, resolving the backslash escapes; returns the
decoded body and the rest of the input.  This models the parse the spec's
escape-safety property quantifies over.  The `fuel` argument makes the
recursion structural; every step consumes at least one character, so the
input length is always enough fuel. -/
def scanFuel : Nat → List Char → Option (List Char × List Char)
  | _, [] => none
  | 0, _ => none
  | fuel + 1, c :: rest =>
    if c == quoteChar then some ([], rest)
    else if c == backslashChar then
      match rest with
      | [] => none
      | d :: rest2 =>
        match turtleUnescChar d with
        | some u => (scanFuel fuel rest2).map (fun p => (u :: p.1, p.2))
        | none => none
    else (scanFuel fuel rest).map (fun p => (c :: p.1, p.2))

def scanTurtleLit (l : List Char) : Option (List Char × List Char) :=
  scanFuel l.length l

/-- Per-character view of `escape_turtle` (proved equal to it below). -/
def escTurtleChar (c : Char) : List Char :=
  if c == backslashChar then [backslashChar, backslashChar]
  else if c == quoteChar then [backslashChar, quoteChar]
  else if c == lfChar then [backslashChar, 'n']
  else if c == crChar then [backslashChar, 'r']
  else if c == tabChar then [backslashChar, 't']
  else [c]

/-- Per-character view of `escape_xml` (proved equal to it below). -/
def escXmlChar (c : Char) : List Char :=
  if c == '&' then "&amp;".data
  else if c == '<' then "&lt;".data
  else if c == '>' then "&gt;".data
  else if c == quoteChar then "&quot;".data
  else if c == apostropheChar then "&apos;".data
  else [c]

/-- `concatMap` written as a plain recursion (used for the per-character
views of the escape functions). -/
def escListMap (f : Char → List Char) : List Char → List Char
  | [] => []
  | c :: t => f c ++ escListMap f t

/-!
## Concrete inputs for the claims
-/

/-- The failing input for the Corrector's value-removal claim: a component
that carries its invalid value in an `<xdcount-value>` element — the value
element name this repository's builder produces — located via its `ct-id`
attribute. -/
def c1_doc : Elem :=
  el "dm-x" [] ""
    [el "ms-abc123" [("ct-id", "abc123")] ""
      [el "label" [] "Population Count" [],
       el "xdcount-value" [] "5" []]]

def c1_errors : List (String × String) := [("abc123", "required field missing")]

/-- What the Corrector actually returns on `c1_doc`: the `xdcount-value`
element is retained (only children tagged literally `value` are removed) and
an `exceptional-value` child is appended. -/
def c1_expected : Elem :=
  el "dm-x" [] ""
    [el "ms-abc123" [("ct-id", "abc123")] ""
      [el "label" [] "Population Count" [],
       el "xdcount-value" [] "5" [],
       el "exceptional-value" [] "NotPerformed" []]]

/-- The spec scenario document for the EV-selection claim: the component,
located via its `ct-id` attribute, holds a direct `value` child (the tag the
Corrector's removal actually matches). -/
def c5_doc : Elem :=
  el "dm-x" [] ""
    [el "ms-abc123" [("ct-id", "abc123")] ""
      [el "label" [] "Population Count" [],
       el "value" [] "bad" []]]

def c5_expected : Elem :=
  el "dm-x" [] ""
    [el "ms-abc123" [("ct-id", "abc123")] ""
      [el "label" [] "Population Count" [],
       el "exceptional-value" [] "NotPerformed" []]]

/-- Modelled from the spec: the repository's per-app `xml_skeleton.xml` and
`FIELD_METADATA` are generated artifacts not present under `src/`.  Per §3
of the spec, the skeleton carries, for the single `XdCount` field `abc123`
(no units declared), exactly one value placeholder
(`PLACEHOLDER_PREFIX + value_element_name + "_" + ct_id`), one
`<ev-placeholder ct_id=...>`, and the optional leaf elements with their own
placeholders; metadata elements carry the standard placeholders. -/
def c7_table : List (String × FieldMeta) :=
  [("abc123", { ct_id := "abc123", type := "XdCount", label := "Population Count" })]

/-- Modelled from the spec: the skeleton tree for `c7_table` (see
`c7_table`). -/
def c7_skeleton : Elem :=
  el "dm-c7dm" [] ""
    [el "dm-label" [] "C7 Model" [],
     el "creation_timestamp" [] "__PLACEHOLDER__creation_timestamp" [],
     el "instance_id" [] "__PLACEHOLDER__instance_id" [],
     el "instance_version" [] "__PLACEHOLDER__instance_version" [],
     el "current-state" [] "__PLACEHOLDER__current-state" [],
     el "ms-c7cluster" [] ""
       [el "label" [] "C7 Cluster" [],
        el "ms-abc123" [] ""
          [el "label" [] "Population Count" [],
           el "xdcount-value" [] "__PLACEHOLDER__xdcount-value_abc123" [],
           el "vtb" [] "__PLACEHOLDER__vtb_abc123" [],
           el "vte" [] "__PLACEHOLDER__vte_abc123" [],
           el "tr" [] "__PLACEHOLDER__tr_abc123" [],
           el "modified" [] "__PLACEHOLDER__modified_abc123" [],
           el "location" [] ""
             [el "latitude" [] "__PLACEHOLDER__latitude_abc123" [],
              el "longitude" [] "__PLACEHOLDER__longitude_abc123" []],
           el "act" [] "__PLACEHOLDER__act_abc123" [],
           el "ev-placeholder" [("ct_id", "abc123")] "" []]]]

/-- The document the builder produces from `c7_skeleton` for
`field_values = {"abc123": 42}` with no metadata overrides. -/
def c7_expected : Elem :=
  el "dm-c7dm" [] ""
    [el "dm-label" [] "C7 Model" [],
     el "creation_timestamp" [] "2024-01-01T00:00:00" [],
     el "instance_id" [] "i-c7test" [],
     el "instance_version" [] "1.0" [],
     el "current-state" [] "" [],
     el "ms-c7cluster" [] ""
       [el "label" [] "C7 Cluster" [],
        el "ms-abc123" [] ""
          [el "label" [] "Population Count" [],
           el "xdcount-value" [] "42" [],
           el "location" [] "" []]]]

/-- Modelled from the spec: the static table for the round-trip failing
input — the same `XdCount` field, now with declared units (§3: `units:
optional {ct_id, label, symbols[], def_val}`). -/
def c2_table : List (String × FieldMeta) :=
  [("abc123",
    { ct_id := "abc123", type := "XdCount", label := "Population Count",
      units := some { ct_id := "u1", label := some "Population Units",
                      symbols := ["people"], def_val := "people" } })]

/-- Modelled from the spec: the skeleton for `c2_table`; the units block is
the `xdcount-units` element with the units label and `xdstring-value`
placeholders keyed by the units ct_id (§3, §4.1 step 4). -/
def c2_skeleton : Elem :=
  el "dm-c2dm" [] ""
    [el "dm-label" [] "C2 Model" [],
     el "creation_timestamp" [] "__PLACEHOLDER__creation_timestamp" [],
     el "instance_id" [] "__PLACEHOLDER__instance_id" [],
     el "ms-c2cluster" [] ""
       [el "label" [] "C2 Cluster" [],
        el "ms-abc123" [] ""
          [el "label" [] "Population Count" [],
           el "xdcount-value" [] "__PLACEHOLDER__xdcount-value_abc123" [],
           el "xdcount-units" [] ""
             [el "label" [] "__PLACEHOLDER__label_u1" [],
              el "xdstring-value" [] "__PLACEHOLDER__xdstring-value_u1" []],
           el "vtb" [] "__PLACEHOLDER__vtb_abc123" [],
           el "ev-placeholder" [("ct_id", "abc123")] "" []]]]

/-- The built document for the round-trip failing input:
`field_values = {"abc123": 42}` with units `"people"` selected. -/
def c2_built : Elem :=
  build_from_form "2024-01-01T00:00:00" "c2cuid" c2_table c2_skeleton
    "i-c2test" [("abc123", PyVal.int 42)]
    [("abc123", { units := some "people" })]

/-- The record the query extractor produces for `abc123` on `c2_built`: the
`value` is the units string, not the supplied 42 (the fixed value-element
search order matches the units' nested `xdstring-value` first). -/
def c2_record : FieldRecord :=
  { label := some "Population Count", value := some (JVal.s "people") }

/-- Modelled from the spec: skeleton and table for the Builder EV-coexistence
claim — one `XdString` field `sf1` with its value placeholder and
`ev-placeholder` (§3). -/
def c3_table : List (String × FieldMeta) :=
  [("sf1", { ct_id := "sf1", type := "XdString", label := "Note" })]

/-- Modelled from the spec: the skeleton tree for `c3_table` (see
`c3_table`). -/
def c3_skeleton : Elem :=
  el "dm-c3dm" [] ""
    [el "creation_timestamp" [] "__PLACEHOLDER__creation_timestamp" [],
     el "instance_id" [] "__PLACEHOLDER__instance_id" [],
     el "ms-c3cluster" [] ""
       [el "label" [] "C3 Cluster" [],
        el "ms-sf1" [] ""
          [el "label" [] "Note" [],
           el "xdstring-value" [] "__PLACEHOLDER__xdstring-value_sf1" [],
           el "ev-placeholder" [("ct_id", "sf1")] "" []]]]

/-- The component the builder produces for field `sf1` given value `v` and
EV code `code` with fixed name `name`: value element and EV element
coexist. -/
def c3_component (v code name : String) : Elem :=
  el "ms-sf1" [] ""
    [el "label" [] "Note" [],
     el "xdstring-value" [] (escape_xml v) [],
     el (nsTag code) [] "" [el "ev-name" [] name []]]


/-- The c3 skeleton after metadata substitution (timestamp `"n0"`,
instance id `"i-c3"`). -/
def c3_sk1 : Elem :=
  el "dm-c3dm" [] ""
    [el "creation_timestamp" [] "n0" [],
     el "instance_id" [] "i-c3" [],
     el "ms-c3cluster" [] ""
       [el "label" [] "C3 Cluster" [],
        el "ms-sf1" [] ""
          [el "label" [] "Note" [],
           el "xdstring-value" [] "__PLACEHOLDER__xdstring-value_sf1" [],
           el "ev-placeholder" [("ct_id", "sf1")] "" []]]]

/-- The c3 skeleton after field substitution of value `v`: the value
placeholder is replaced by the XML-escaped value text. -/
def c3_sub (v : String) : Elem :=
  el "dm-c3dm" [] ""
    [el "creation_timestamp" [] "n0" [],
     el "instance_id" [] "i-c3" [],
     el "ms-c3cluster" [] ""
       [el "label" [] "C3 Cluster" [],
        el "ms-sf1" [] ""
          [el "label" [] "Note" [],
           el "xdstring-value" [] (String.mk ((escape_xml v).data ++ [])) [],
           el "ev-placeholder" [("ct_id", "sf1")] "" []]]]

/-- Modelled from the spec: skeleton and table for the temporal-truncation
scenario — one `XdTemporal` field `tf1` declared with
`temporal_types = ["date"]` (§3). -/
def c6_table : List (String × FieldMeta) :=
  [("tf1", { ct_id := "tf1", type := "XdTemporal", label := "Event Date",
             temporal_types := ["date"] })]

/-- Modelled from the spec: the skeleton tree for `c6_table` (see
`c6_table`). -/
def c6_skeleton : Elem :=
  el "dm-c6dm" [] ""
    [el "creation_timestamp" [] "__PLACEHOLDER__creation_timestamp" [],
     el "instance_id" [] "__PLACEHOLDER__instance_id" [],
     el "ms-c6cluster" [] ""
       [el "label" [] "C6 Cluster" [],
        el "ms-tf1" [] ""
          [el "label" [] "Event Date" [],
           el "xdtemporal-date" [] "__PLACEHOLDER__xdtemporal-date_tf1" [],
           el "ev-placeholder" [("ct_id", "tf1")] "" []]]]

/-- The counterexample input for the EV-suppression claim: the component
carries an `exceptional-value` child with empty text next to a populated
value element. -/
def c8_elem : Elem :=
  el "ms-x1" [] ""
    [el "label" [] "L" [],
     el "exceptional-value" [] "" [],
     el "xdcount-value" [] "5" []]

/-- The witness input for the amended EV-suppression claim. -/
def c8w_elem : Elem :=
  el "ms-y1" [] ""
    [el "label" [] "L2" [],
     el "exceptional-value" [] "NoInformation" [],
     el "xdcount-value" [] "7" []]

/-!
## Helper lemmas
-/

theorem escListMap_append (f : Char → List Char) (l1 l2 : List Char) :
    escListMap f (l1 ++ l2) = escListMap f l1 ++ escListMap f l2 := by
  induction l1 with
  | nil => rfl
  | cons c t ih => simp [escListMap, ih]

theorem escListMap_comp (f g : Char → List Char) (l : List Char) :
    escListMap g (escListMap f l) =
      escListMap (fun c => escListMap g (f c)) l := by
  induction l with
  | nil => rfl
  | cons c t ih => simp [escListMap, escListMap_append, ih]

theorem escListMap_congr {f g : Char → List Char} (h : ∀ c, f c = g c)
    (l : List Char) : escListMap f l = escListMap g l := by
  induction l with
  | nil => rfl
  | cons c t ih => simp [escListMap, h c, ih]

theorem replaceFuel_single (a : Char) (r : List Char) :
    ∀ (l : List Char) (fuel : Nat), l.length ≤ fuel →
      replaceFuel [a] r fuel l =
        escListMap (fun c => if c == a then r else [c]) l := by
  intro l
  induction l with
  | nil => intro fuel _; cases fuel <;> rfl
  | cons h t ih =>
    intro fuel hf
    cases fuel with
    | zero => simp at hf
    | succ m =>
      by_cases hah : h = a
      · subst hah
        have hs : listStarts [h] (h :: t) = true := by
          simp [listStarts]
        simp only [replaceFuel, hs, if_pos rfl, escListMap]
        simp only [List.length_nil, List.drop_zero]
        rw [ih m (by simpa using hf)]
        simp
      · have hs : listStarts [a] (h :: t) = false := by
          simp [listStarts]
          exact fun hc => absurd hc.symm hah
        simp only [replaceFuel, hs, escListMap]
        rw [ih m (by simpa using hf)]
        have : (h == a) = false := by simp [hah]
        simp [this]

theorem pyReplace_single (s : String) (a : Char) (r : String) :
    pyReplace s (String.mk [a]) r =
      String.mk (escListMap (fun c => if c == a then r.data else [c]) s.data) := by
  unfold pyReplace replaceChars
  exact congrArg String.mk (replaceFuel_single a r.data s.data s.data.length le_rfl)

theorem escape_turtle_eq (s : String) :
    escape_turtle s = String.mk (escListMap escTurtleChar s.data) := by
  unfold escape_turtle
  rw [pyReplace_single, pyReplace_single, pyReplace_single, pyReplace_single,
    pyReplace_single]
  simp only [escListMap_comp]
  refine congrArg String.mk (escListMap_congr ?_ s.data)
  intro c
  by_cases h1 : c = backslashChar
  · subst h1; decide
  · by_cases h2 : c = quoteChar
    · subst h2; decide
    · by_cases h3 : c = lfChar
      · subst h3; decide
      · by_cases h4 : c = crChar
        · subst h4; decide
        · by_cases h5 : c = tabChar
          · subst h5; decide
          · simp [escListMap, escTurtleChar, h1, h2, h3, h4, h5]

theorem escTurtleChar_length (c : Char) : 1 <= (escTurtleChar c).length := by
  by_cases h1 : c = backslashChar
  · subst h1; decide
  · by_cases h2 : c = quoteChar
    · subst h2; decide
    · by_cases h3 : c = lfChar
      · subst h3; decide
      · by_cases h4 : c = crChar
        · subst h4; decide
        · by_cases h5 : c = tabChar
          · subst h5; decide
          · simp [escTurtleChar, h1, h2, h3, h4, h5]

theorem scanFuel_esc (l : List Char) :
    ∀ (fuel : Nat) (rest : List Char), l.length + 1 <= fuel →
      scanFuel fuel (escListMap escTurtleChar l ++ (quoteChar :: rest)) =
        some (l, rest) := by
  induction l with
  | nil =>
    intro fuel rest hf
    cases fuel with
    | zero => simp at hf
    | succ f =>
      show scanFuel (f + 1) (quoteChar :: rest) = _
      simp only [scanFuel]
      rw [if_pos (by decide)]
  | cons c t ih =>
    intro fuel rest hf
    cases fuel with
    | zero => simp at hf
    | succ f =>
      have hft : t.length + 1 <= f := by simp at hf; omega
      by_cases h1 : c = backslashChar
      · subst h1
        show scanFuel (f + 1) (backslashChar :: backslashChar :: _) = _
        simp only [scanFuel]
        rw [if_neg (by decide), if_pos (by decide),
          show turtleUnescChar backslashChar = some backslashChar from rfl]
        rw [show ([].append (escListMap escTurtleChar t)).append (quoteChar :: rest) =
            escListMap escTurtleChar t ++ quoteChar :: rest from rfl]
        rw [ih f rest hft]
        rfl
      · by_cases h2 : c = quoteChar
        · subst h2
          show scanFuel (f + 1) (backslashChar :: quoteChar :: _) = _
          simp only [scanFuel]
          rw [if_neg (by decide), if_pos (by decide),
            show turtleUnescChar quoteChar = some quoteChar from rfl]
          rw [show ([].append (escListMap escTurtleChar t)).append (quoteChar :: rest) =
            escListMap escTurtleChar t ++ quoteChar :: rest from rfl]
          rw [ih f rest hft]
          rfl
        · by_cases h3 : c = lfChar
          · subst h3
            show scanFuel (f + 1) (backslashChar :: 'n' :: _) = _
            simp only [scanFuel]
            rw [if_neg (by decide), if_pos (by decide),
              show turtleUnescChar 'n' = some lfChar from rfl]
            rw [show ([].append (escListMap escTurtleChar t)).append (quoteChar :: rest) =
            escListMap escTurtleChar t ++ quoteChar :: rest from rfl]
            rw [ih f rest hft]
            rfl
          · by_cases h4 : c = crChar
            · subst h4
              show scanFuel (f + 1) (backslashChar :: 'r' :: _) = _
              simp only [scanFuel]
              rw [if_neg (by decide), if_pos (by decide),
                show turtleUnescChar 'r' = some crChar from rfl]
              rw [show ([].append (escListMap escTurtleChar t)).append (quoteChar :: rest) =
            escListMap escTurtleChar t ++ quoteChar :: rest from rfl]
              rw [ih f rest hft]
              rfl
            · by_cases h5 : c = tabChar
              · subst h5
                show scanFuel (f + 1) (backslashChar :: 't' :: _) = _
                simp only [scanFuel]
                rw [if_neg (by decide), if_pos (by decide),
                  show turtleUnescChar 't' = some tabChar from rfl]
                rw [show ([].append (escListMap escTurtleChar t)).append (quoteChar :: rest) =
            escListMap escTurtleChar t ++ quoteChar :: rest from rfl]
                rw [ih f rest hft]
                rfl
              · have hc : escTurtleChar c = [c] := by
                  simp [escTurtleChar, h1, h2, h3, h4, h5]
                show scanFuel (f + 1) ((escTurtleChar c ++ _) ++ _) = _
                rw [hc]
                show scanFuel (f + 1) (c :: _) = _
                simp only [scanFuel]
                rw [if_neg (by simp [h2]), if_neg (by simp [h1])]
                rw [show ([].append (escListMap escTurtleChar t)).append (quoteChar :: rest) =
            escListMap escTurtleChar t ++ quoteChar :: rest from rfl]
                rw [ih f rest hft]
                rfl

theorem escListMap_length_le (f : Char → List Char)
    (hne : ∀ c, 1 <= (f c).length) (l : List Char) :
    l.length <= (escListMap f l).length := by
  induction l with
  | nil => simp [escListMap]
  | cons c t ih =>
    have := hne c
    simp only [escListMap, List.length_append, List.length_cons]
    omega

theorem scanTurtleLit_esc (l : List Char) (rest : List Char) :
    scanTurtleLit (escListMap escTurtleChar l ++ (quoteChar :: rest)) =
      some (l, rest) := by
  unfold scanTurtleLit
  apply scanFuel_esc
  have h1 := escListMap_length_le escTurtleChar escTurtleChar_length l
  simp only [List.length_append, List.length_cons]
  omega

theorem escape_xml_eq (s : String) :
    escape_xml s = String.mk (escListMap escXmlChar s.data) := by
  unfold escape_xml
  rw [pyReplace_single, pyReplace_single, pyReplace_single, pyReplace_single,
    pyReplace_single]
  simp only [escListMap_comp]
  refine congrArg String.mk (escListMap_congr ?_ s.data)
  intro c
  by_cases h1 : c = '&'
  · subst h1; decide
  · by_cases h2 : c = '<'
    · subst h2; decide
    · by_cases h3 : c = '>'
      · subst h3; decide
      · by_cases h4 : c = quoteChar
        · subst h4; decide
        · by_cases h5 : c = apostropheChar
          · subst h5; decide
          · simp [escListMap, escXmlChar, h1, h2, h3, h4, h5]

theorem escXmlChar_no_lt (c : Char) : ∀ d ∈ escXmlChar c, d ≠ '<' := by
  by_cases h1 : c = '&'
  · subst h1; decide
  · by_cases h2 : c = '<'
    · subst h2; decide
    · by_cases h3 : c = '>'
      · subst h3; decide
      · by_cases h4 : c = quoteChar
        · subst h4; decide
        · by_cases h5 : c = apostropheChar
          · subst h5; decide
          · intro d hd
            simp only [escXmlChar, beq_iff_eq, if_neg h1, if_neg h2, if_neg h3,
              if_neg h4, if_neg h5, List.mem_singleton] at hd
            subst hd; exact h2

theorem escape_xml_no_lt (s : String) : ∀ d ∈ (escape_xml s).data, d ≠ '<' := by
  rw [escape_xml_eq]
  show ∀ d ∈ escListMap escXmlChar s.data, d ≠ '<'
  induction s.data with
  | nil => simp [escListMap]
  | cons c t ih =>
    intro d hd
    simp only [escListMap, List.mem_append] at hd
    rcases hd with hd | hd
    · exact escXmlChar_no_lt c d hd
    · exact ih d hd

theorem containsChars_false_of_head_absent (w : List Char) :
    ∀ (hay : List Char), (∀ d ∈ hay, d ≠ '<') →
      containsChars hay ('<' :: w) = false := by
  intro hay
  induction hay with
  | nil => intro _; rfl
  | cons h t ih =>
    intro hno
    have hh : h ≠ '<' := fun hh => (hno h (by simp)) hh
    have hstart : listStarts ('<' :: w) (h :: t) = false := by
      simp [listStarts]
      exact fun hc => absurd hc.symm hh
    simp [containsChars, hstart]
    exact ih (fun d hd => hno d (by simp [hd]))

theorem escape_xml_no_comment_mark (s : String) :
    strContains (escape_xml s) optionalCommentMark = false := by
  unfold strContains
  exact containsChars_false_of_head_absent _ _ (escape_xml_no_lt s)

theorem escXmlChar_ne_nil (c : Char) : escXmlChar c ≠ [] := by
  by_cases h1 : c = '&'
  · subst h1; decide
  · by_cases h2 : c = '<'
    · subst h2; decide
    · by_cases h3 : c = '>'
      · subst h3; decide
      · by_cases h4 : c = quoteChar
        · subst h4; decide
        · by_cases h5 : c = apostropheChar
          · subst h5; decide
          · simp [escXmlChar, h1, h2, h3, h4, h5]

theorem escape_xml_ne_empty (s : String) (h : s ≠ "") : escape_xml s ≠ "" := by
  rw [escape_xml_eq]
  cases s with
  | mk d =>
    cases d with
    | nil => exact absurd rfl h
    | cons c t =>
      intro hcon
      have hdata : escListMap escXmlChar (c :: t) = [] := by
        have := congrArg String.data hcon
        simpa using this
      simp only [escListMap] at hdata
      exact escXmlChar_ne_nil c (List.append_eq_nil.mp hdata).1

theorem takeWhileBool (p q : Char → Bool) (l : List Char) :
    (l.takeWhile q).takeWhile p = l.takeWhile (fun c => q c && p c) := by
  induction l with
  | nil => rfl
  | cons c t ih =>
    by_cases hq : q c <;> by_cases hp : p c <;>
      simp [List.takeWhile, hq, hp, ih]

theorem takeWhile_of_not_contains (c : Char) (l : List Char)
    (h : containsChars l [c] = false) :
    l.takeWhile (fun x => x != c) = l := by
  induction l with
  | nil => rfl
  | cons h0 t ih =>
    simp only [containsChars, Bool.or_eq_false_iff] at h
    have hne : ¬(c = h0) := by
      intro hc
      subst hc
      simp [listStarts] at h
    simp only [List.takeWhile]
    have : (h0 != c) = true := by
      simp [bne_iff_ne]
      exact fun hc => hne hc.symm
    rw [this]
    simp only [if_true]
    rw [ih h.2]

/-!
## Claim theorems
-/


/-- The pruning pass keeps (recursing into) any non-comment element whose
local tag has no required default and is not optional, and whose text does
not carry the comment-style removal marker, whatever its placeholder
status. -/
theorem pruneList_keep (nowStr cuid t : String) (a : List (String × String))
    (x : String) (cs rest : ElemList)
    (hcom : (t == "#comment") = false)
    (hreq : requiredDefault nowStr cuid (stripNamespace t) = none)
    (hopt : OPTIONAL_ELEMENTS.contains (stripNamespace t) = false)
    (hcm : strContains x optionalCommentMark = false) :
    pruneList nowStr cuid (ElemList.cons (Elem.mk t a x cs) rest) =
      ElemList.cons (Elem.mk t a x (pruneList nowStr cuid cs))
        (pruneList nowStr cuid rest) := by
  conv_lhs => rw [pruneList]
  rw [if_neg (by simp_all)]
  cases hpm : strContains x PLACEHOLDER_MARK
  · simp only [Bool.false_eq_true, if_false]
    rw [if_neg (by simp [hcm])]
  · simp only [if_true]
    rw [hreq]
    simp only [hopt, Bool.false_eq_true, if_false]
    rw [if_neg (by simp [hcm])]

/-- C1: the claim says every corrected component has its invalid value
element removed.  The code only removes descendants tagged literally
`value`; on a component whose invalid value sits in `<xdcount-value>` — the
element name this repository's builder produces — the value element is
retained next to the appended `exceptional-value` child.  This theorem
evaluates the embedded Corrector at that failing input. -/
theorem C1_corrector_retains_value_element :
    correctTree c1_doc c1_errors =
      Except.ok (c1_expected, ["Population Count"]) ∧
    ((c1_expected.findDesc "ms-abc123").map
      (fun comp => comp.findDesc "xdcount-value")) =
      some (some (el "xdcount-value" [] "5" [])) ∧
    ((c1_expected.findDesc "ms-abc123").map
      (fun comp => comp.findDesc "exceptional-value")) =
      some (some (el "exceptional-value" [] "NotPerformed" [])) :=
  ⟨rfl, rfl, rfl⟩

/-- C5: the Corrector selects the EV by a first-match-wins ordered heuristic
over the lowercased error message text — required/missing/mandatory →
NotPerformed; else type/format/pattern → NoInformation; else
range/constraint/bounds/limit → Unknown; else refused/declined → Refused;
else not applicable / n/a → NotApplicable; else NoInformation.  In
particular "required field missing" yields an
`<exceptional-value>NotPerformed</exceptional-value>` child on the corrected
component. -/
theorem C5_ev_heuristic :
    (∀ msg : String,
      (mentionsAny msg ["required", "missing", "mandatory"] = true →
        choose_ev_for_error msg = "NotPerformed") ∧
      (mentionsAny msg ["required", "missing", "mandatory"] = false →
        mentionsAny msg ["type", "format", "pattern"] = true →
        choose_ev_for_error msg = "NoInformation") ∧
      (mentionsAny msg ["required", "missing", "mandatory"] = false →
        mentionsAny msg ["type", "format", "pattern"] = false →
        mentionsAny msg ["range", "constraint", "bounds", "limit"] = true →
        choose_ev_for_error msg = "Unknown") ∧
      (mentionsAny msg ["required", "missing", "mandatory"] = false →
        mentionsAny msg ["type", "format", "pattern"] = false →
        mentionsAny msg ["range", "constraint", "bounds", "limit"] = false →
        mentionsAny msg ["refused", "declined"] = true →
        choose_ev_for_error msg = "Refused") ∧
      (mentionsAny msg ["required", "missing", "mandatory"] = false →
        mentionsAny msg ["type", "format", "pattern"] = false →
        mentionsAny msg ["range", "constraint", "bounds", "limit"] = false →
        mentionsAny msg ["refused", "declined"] = false →
        mentionsAny msg ["not applicable", "n/a"] = true →
        choose_ev_for_error msg = "NotApplicable") ∧
      (mentionsAny msg ["required", "missing", "mandatory"] = false →
        mentionsAny msg ["type", "format", "pattern"] = false →
        mentionsAny msg ["range", "constraint", "bounds", "limit"] = false →
        mentionsAny msg ["refused", "declined"] = false →
        mentionsAny msg ["not applicable", "n/a"] = false →
        choose_ev_for_error msg = "NoInformation")) ∧
    correctTree c5_doc [("abc123", "required field missing")] =
      Except.ok (c5_expected, ["Population Count"]) := by
  constructor
  · intro msg
    refine ⟨fun h1 => ?_, fun h1 h2 => ?_, fun h1 h2 h3 => ?_,
      fun h1 h2 h3 h4 => ?_, fun h1 h2 h3 h4 h5 => ?_,
      fun h1 h2 h3 h4 h5 => ?_⟩ <;>
    · unfold choose_ev_for_error
      unfold mentionsAny at *
      simp_all
  · rfl

/-- Witness for C5 at the message `"required field missing"`. -/
theorem C5_ev_heuristic_witness :
    mentionsAny "required field missing" ["required", "missing", "mandatory"] =
      true ∧
    choose_ev_for_error "required field missing" = "NotPerformed" :=
  ⟨by decide, (C5_ev_heuristic.1 "required field missing").1 (by decide)⟩

/-- C9: when the input string is not well-formed XML (`ET.fromstring`
fails), `auto_correct_with_evs` returns the input unchanged with an empty
list of corrected labels, and no exception escapes. -/
theorem C9_auto_correct_unparseable (parseXml : String → Option Elem)
    (xml : String) (errors : List (String × String))
    (h : parseXml xml = none) :
    auto_correct_with_evs parseXml xml errors =
      Except.ok (Sum.inl xml, []) := by
  unfold auto_correct_with_evs
  rw [h]

/-- Witness for C9 at a parser that rejects the input. -/
theorem C9_auto_correct_unparseable_witness :
    (fun _ : String => (none : Option Elem)) "<unclosed" = none ∧
    auto_correct_with_evs (fun _ => none) "<unclosed" [("a", "required")] =
      Except.ok (Sum.inl "<unclosed", []) :=
  ⟨rfl, C9_auto_correct_unparseable (fun _ => none) "<unclosed"
    [("a", "required")] rfl⟩

/-- C10: when the input string is not well-formed XML, none of the three
projections raises: the query JSON extractor returns the empty
metadata/fields/search-text result, the clean generator returns the empty
dictionary (modelled `none`), and the RDF extractor returns the empty
string. -/
theorem C10_projections_unparseable (parseXml : String → Option Elem)
    (table : List (String × FieldMeta)) (dm_ct_id dm_label : String)
    (xml instance_id status : String) (acf : List String)
    (h : parseXml xml = none) :
    json_extract parseXml xml =
      { metadata := [], fields := [], search_text := "" } ∧
    json_instance_generate parseXml table xml = none ∧
    rdf_extract parseXml dm_ct_id dm_label table xml instance_id status acf =
      "" := by
  refine ⟨?_, ?_, ?_⟩
  · unfold json_extract; rw [h]
  · unfold json_instance_generate; rw [h]
  · unfold rdf_extract; rw [h]

/-- Witness for C10 at a parser that rejects the input. -/
theorem C10_projections_unparseable_witness :
    (fun _ : String => (none : Option Elem)) "<unclosed" = none ∧
    json_extract (fun _ => none) "<unclosed" =
      { metadata := [], fields := [], search_text := "" } ∧
    json_instance_generate (fun _ => none) c7_table "<unclosed" = none ∧
    rdf_extract (fun _ => none) "dm1" "DM" c7_table "<unclosed" "i-x"
      "valid" [] = "" := by
  have h := C10_projections_unparseable (fun _ => none) c7_table "dm1" "DM"
    "<unclosed" "i-x" "valid" [] rfl
  exact ⟨rfl, h.1, h.2.1, h.2.2⟩

/-- C7: building `field_values = {"abc123": 42}` for an `XdCount` field with
no metadata overrides yields `<xdcount-value>42</xdcount-value>` inside
`<ms-abc123>`, and the document has no units, vtb or latitude elements (the
unpopulated optional leaves are pruned; no units block exists for a field
without declared units). -/
theorem C7_xdcount_scenario :
    build_from_form "2024-01-01T00:00:00" "c7test" c7_table c7_skeleton
        "i-c7test" [("abc123", PyVal.int 42)] [] = c7_expected ∧
    ((c7_expected.findDesc "ms-abc123").map
      (fun comp => comp.findDesc "xdcount-value")) =
      some (some (el "xdcount-value" [] "42" [])) ∧
    c7_expected.findDesc "xdcount-units" = none ∧
    c7_expected.findDesc "units" = none ∧
    c7_expected.findDesc "vtb" = none ∧
    c7_expected.findDesc "latitude" = none :=
  ⟨rfl, rfl, rfl, rfl, rfl, rfl⟩

/-- C2: round-trip identity fails on the code.  For an `XdCount` field with
value 42 and units `"people"`, the query JSON projection reports the units
string as the field's value — `_extract_field` searches the fixed
value-element name list and `xdstring-value` (first in the list) matches the
units' nested `xdstring-value` before `xdcount-value` is tried — while the
sniffing decode of `"42"` (what the claim requires to be reported) is 42.
The clean projection decodes the supplied value correctly, so the two
projections disagree and the supplied value is not reported by the query
projection. -/
theorem C2_query_projection_drops_value :
    (json_extract (fun _ => some c2_built) "doc").fields.find?
        (fun p => p.1 == "abc123") = some ("abc123", c2_record) ∧
    c2_record.value = some (JVal.s "people") ∧
    parse_value_query "42" = JVal.i 42 ∧
    (json_instance_generate (fun _ => some c2_built) c2_table "doc").map
        Prod.snd =
      some [("Population Count",
        { value := some (JVal.i 42), units := some "people" })] :=
  ⟨rfl, rfl, rfl, rfl⟩

/-- C4: for boolean/count/ordinal/quantity/float/double kinds the Turtle
literal inside the quoted triple is emitted without quoting (booleans
lowercased, numbers verbatim); for every other kind it is the quoted,
Turtle-escaped string, and a Turtle literal scan of the emitted body
followed by the closing quote recovers exactly the original value — so any
value containing backslash, quote, CR, LF or TAB survives a Turtle parse
uncorrupted. -/
theorem C4_literal_quoting :
    (∀ (v : String) (t : String), t ∈ unquotedKinds →
      value_literal t v = (if t == "XdBoolean" then pyLower v else v)) ∧
    (∀ (v : String) (rest : List Char) (t : String), t ∉ unquotedKinds →
      value_literal t v = quoteStr (escape_turtle v) ∧
      scanTurtleLit ((escape_turtle v).data ++ (quoteChar :: rest)) =
        some (v.data, rest)) := by
  constructor
  · intro v t ht
    fin_cases ht <;> rfl
  · intro v rest t ht
    simp only [unquotedKinds, List.mem_cons, List.not_mem_nil, or_false,
      not_or] at ht
    obtain ⟨n1, n2, n3, n4, n5, n6⟩ := ht
    constructor
    · simp [value_literal, n1, n2, n3, n4, n5, n6]
    · rw [escape_turtle_eq]
      exact scanTurtleLit_esc v.data rest

/-- Witness for C4: an `XdString` value containing a quote, a backslash and
a line feed is quoted, escaped and recovered by the scan; an `XdCount` value
is emitted verbatim. -/
theorem C4_literal_quoting_witness :
    ("XdString" ∉ unquotedKinds ∧
      value_literal "XdString" (String.mk [quoteChar, backslashChar, 'a', lfChar]) =
        quoteStr (escape_turtle (String.mk [quoteChar, backslashChar, 'a', lfChar])) ∧
      scanTurtleLit
          ((escape_turtle (String.mk [quoteChar, backslashChar, 'a', lfChar])).data ++
            (quoteChar :: ['z'])) =
        some ((String.mk [quoteChar, backslashChar, 'a', lfChar]).data, ['z'])) ∧
    ("XdCount" ∈ unquotedKinds ∧
      value_literal "XdCount" "42" = "42") := by
  have h2 := C4_literal_quoting.2 (String.mk [quoteChar, backslashChar, 'a', lfChar])
    ['z'] "XdString" (by decide)
  have h1 := C4_literal_quoting.1 "42" "XdCount" (by decide)
  exact ⟨⟨by decide, h2.1, h2.2⟩, ⟨by decide, h1⟩⟩

/-- C8 counterexample: a component element carrying an `exceptional-value`
child (with empty text) next to a populated `xdcount-value`: the record the
extractor produces has its value populated and no exceptional_value entry,
contradicting the claim that an exceptional-value child always suppresses
the value fields. -/
theorem C8_counterexample_empty_text_ev :
    (c8_elem.findDesc "exceptional-value").isSome = true ∧
    extract_field c8_elem =
      some { label := some "L", value := some (JVal.i 5) } :=
  ⟨rfl, rfl⟩

/-- C8 (amended): when the extractor finds an `exceptional-value` descendant
with non-empty text in the component element, the produced record carries the
exceptional_value entry (and possibly the label) only — value, units,
valid_time_begin, valid_time_end and location are not populated, even when a
value element is present in the XML. -/
theorem C8_ev_suppresses_value (e : Elem) (ev : Elem) (r : FieldRecord)
    (hev : e.findDesc "exceptional-value" = some ev) (ht : ev.text ≠ "")
    (hr : extract_field e = some r) :
    r.exceptional_value = some ev.text ∧ r.value = none ∧ r.units = none ∧
    r.valid_time_begin = none ∧ r.valid_time_end = none ∧
    r.location = none := by
  have htb : (ev.text != "") = true := by simp [ht]
  unfold extract_field at hr
  rw [hev] at hr
  rcases hlb : e.findDesc "label" with _ | l <;> rw [hlb] at hr
  · simp only [htb, if_true] at hr
    split at hr
    · exact absurd hr (by simp)
    · cases hr
      exact ⟨rfl, rfl, rfl, rfl, rfl, rfl⟩
  · by_cases hlt : (l.text != "") = true
    · simp only [htb, hlt, if_true] at hr
      split at hr
      · exact absurd hr (by simp)
      · cases hr
        exact ⟨rfl, rfl, rfl, rfl, rfl, rfl⟩
    · have hlf : (l.text != "") = false := by simpa using hlt
      simp only [htb, hlf, if_true, Bool.false_eq_true, if_false] at hr
      split at hr
      · exact absurd hr (by simp)
      · cases hr
        exact ⟨rfl, rfl, rfl, rfl, rfl, rfl⟩

/-- Witness for the amended C8 at a component with a non-empty
`exceptional-value` child and a populated value element. -/
theorem C8_ev_suppresses_value_witness :
    ({ label := some "L2", exceptional_value := some "NoInformation" } :
        FieldRecord).exceptional_value =
      some ((el "exceptional-value" [] "NoInformation" []) : Elem).text ∧
    ({ label := some "L2", exceptional_value := some "NoInformation" } :
        FieldRecord).value = none ∧
    ({ label := some "L2", exceptional_value := some "NoInformation" } :
        FieldRecord).units = none ∧
    ({ label := some "L2", exceptional_value := some "NoInformation" } :
        FieldRecord).valid_time_begin = none ∧
    ({ label := some "L2", exceptional_value := some "NoInformation" } :
        FieldRecord).valid_time_end = none ∧
    ({ label := some "L2", exceptional_value := some "NoInformation" } :
        FieldRecord).location = none :=
  C8_ev_suppresses_value c8w_elem (el "exceptional-value" [] "NoInformation" [])
    { label := some "L2", exceptional_value := some "NoInformation" }
    rfl (by decide) rfl

/-- C6: for a temporal field whose `temporal_types` list begins with
`"date"`, a string value mixing date and time components is truncated at the
first space or `T` (the two-stage split of `_format_temporal_value` equals
one truncation at the first of either character); the element name is chosen
from the first entry of the `temporal_types` list; and the scenario value
`"2024-03-15T10:30:00"` builds `<xdtemporal-date>2024-03-15</xdtemporal-date>`. -/
theorem C6_temporal_date_truncation :
    (∀ s : String, format_temporal_value s "date" =
      String.mk (s.data.takeWhile (fun c => !(c == spaceChar || c == 'T')))) ∧
    (∀ m : FieldMeta, m.temporal_types.head? = some "date" →
      get_value_element_name "XdTemporal" (some m) = "xdtemporal-date") ∧
    build_from_form "n0" "c0" c6_table c6_skeleton "i-c6"
        [("tf1", PyVal.str "2024-03-15T10:30:00")] [] =
      el "dm-c6dm" [] ""
        [el "creation_timestamp" [] "n0" [],
         el "instance_id" [] "i-c6" [],
         el "ms-c6cluster" [] ""
           [el "label" [] "C6 Cluster" [],
            el "ms-tf1" [] ""
              [el "label" [] "Event Date" [],
               el "xdtemporal-date" [] "2024-03-15" []]]] := by
  refine ⟨?_, ?_, ?_⟩
  · intro s
    have hpred : (fun c => (c != spaceChar) && (c != 'T')) =
        (fun c => !(c == spaceChar || c == 'T')) := by
      funext c
      cases hcs : c == spaceChar <;> cases hct : c == 'T' <;>
        simp [bne, hcs, hct]
    by_cases hs : s = ""
    · subst hs; rfl
    · unfold format_temporal_value
      rw [if_neg (by simp [hs]), if_pos (by rfl)]
      cases hc1 : strContains s (String.mk [spaceChar]) <;>
        simp only [Bool.false_eq_true, if_false, if_true]
      · cases hc2 : strContains s "T" <;>
          simp only [Bool.false_eq_true, if_false, if_true]
        · unfold strContains at hc1 hc2
          rw [show s = String.mk s.data from rfl]
          congr 1
          rw [← hpred, ← takeWhileBool,
            takeWhile_of_not_contains spaceChar s.data (by simpa using hc1),
            takeWhile_of_not_contains 'T' s.data (by simpa using hc2)]
        · unfold pySplitHead strContains at *
          congr 1
          rw [← hpred, ← takeWhileBool,
            takeWhile_of_not_contains spaceChar s.data (by simpa using hc1)]
      · cases hc2 : strContains (pySplitHead s spaceChar) "T" <;>
          simp only [Bool.false_eq_true, if_false, if_true]
        · unfold pySplitHead strContains at *
          congr 1
          rw [← hpred, ← takeWhileBool,
            takeWhile_of_not_contains 'T' _ (by simpa using hc2)]
        · unfold pySplitHead strContains at *
          congr 1
          rw [← hpred, ← takeWhileBool]
  · intro m hm
    obtain ⟨ct, ty, lb, ad, tt, un⟩ := m
    rcases tt with _ | ⟨t0, rest⟩
    · simp [FieldMeta.temporal_types] at hm
    · simp only [FieldMeta.temporal_types, List.head?_cons,
        Option.some.injEq] at hm
      subst hm
      rfl
  · rfl

set_option maxHeartbeats 1600000 in
/-- C3: when a field is given both a non-empty value and one of the 16 EV
codes at build time, the built document contains, for that component, both
the populated (non-empty, escaped) value element and the EV element named
after the code, whose single `ev-name` child holds the code's fixed
human-readable name; the EV element's local name is the code itself. -/
theorem C3_ev_coexistence (code name v : String)
    (hmem : (code, name) ∈ EV_CODES) (hv : v ≠ "") :
    (build_from_form "n0" "c0" c3_table c3_skeleton "i-c3"
        [("sf1", PyVal.str v)] [("sf1", { ev := some code })]).findDesc "ms-sf1"
      = some (c3_component v code name) ∧
    (c3_component v code name).findDesc "xdstring-value" =
      some (el "xdstring-value" [] (escape_xml v) []) ∧
    escape_xml v ≠ "" ∧
    (c3_component v code name).findDesc (nsTag code) =
      some (el (nsTag code) [] "" [el "ev-name" [] name []]) ∧
    stripNamespace (nsTag code) = code := by
  have hvp : pyValPresent (PyVal.str v) = true := by simp [pyValPresent, hv]
  have hne := escape_xml_ne_empty v hv
  have h3 : String.mk ((escape_xml v).data ++ []) = escape_xml v := by
    rw [List.append_nil]
  fin_cases hmem
  · refine ⟨?_, rfl, hne, rfl, rfl⟩
    have h1 : replace_field_placeholders c3_table c3_sk1 [("sf1", PyVal.str v)]
        [("sf1", ({ ev := some "NI" } : FieldRuntimeMeta))]
        = (if pyValPresent (PyVal.str v) = true then c3_sub v else c3_sk1) := rfl
    have h2 : (process_ev_and_prune "n0" "c0" c3_table [("sf1", ({ ev := some "NI" } : FieldRuntimeMeta))]
          (c3_sub v)).findDesc "ms-sf1"
        = some (Elem.mk "ms-sf1" [] "" (removeCommentsList (removeEmptyContainersList "acs" (removeEmptyContainersList "workflow" (removeEmptyContainersList "protocol" (removeEmptyContainersList "provider" (removeEmptyContainersList "subject" (ElemList.cons (Elem.mk "label" [] "Note" ElemList.nil) (pruneList "n0" "c0" (ElemList.cons (Elem.mk "xdstring-value" [] (String.mk ((escape_xml v).data ++ [])) ElemList.nil) (ElemList.cons (Elem.mk (nsTag "NI") [] "" (ElemList.cons (Elem.mk "ev-name" [] "No Information" ElemList.nil) ElemList.nil)) ElemList.nil))))))))))) := rfl
    show (process_ev_and_prune "n0" "c0" c3_table [("sf1", ({ ev := some "NI" } : FieldRuntimeMeta))]
        (replace_field_placeholders c3_table c3_sk1 [("sf1", PyVal.str v)]
          [("sf1", ({ ev := some "NI" } : FieldRuntimeMeta))])).findDesc "ms-sf1"
      = some (c3_component v "NI" "No Information")
    rw [h1, if_pos hvp, h2, h3,
      pruneList_keep "n0" "c0" "xdstring-value" [] (escape_xml v) ElemList.nil
        (ElemList.cons (Elem.mk (nsTag "NI") [] "" (ElemList.cons (Elem.mk "ev-name" [] "No Information" ElemList.nil) ElemList.nil)) ElemList.nil)
        rfl rfl rfl (escape_xml_no_comment_mark v)]
    rfl
  · refine ⟨?_, rfl, hne, rfl, rfl⟩
    have h1 : replace_field_placeholders c3_table c3_sk1 [("sf1", PyVal.str v)]
        [("sf1", ({ ev := some "MSK" } : FieldRuntimeMeta))]
        = (if pyValPresent (PyVal.str v) = true then c3_sub v else c3_sk1) := rfl
    have h2 : (process_ev_and_prune "n0" "c0" c3_table [("sf1", ({ ev := some "MSK" } : FieldRuntimeMeta))]
          (c3_sub v)).findDesc "ms-sf1"
        = some (Elem.mk "ms-sf1" [] "" (removeCommentsList (removeEmptyContainersList "acs" (removeEmptyContainersList "workflow" (removeEmptyContainersList "protocol" (removeEmptyContainersList "provider" (removeEmptyContainersList "subject" (ElemList.cons (Elem.mk "label" [] "Note" ElemList.nil) (pruneList "n0" "c0" (ElemList.cons (Elem.mk "xdstring-value" [] (String.mk ((escape_xml v).data ++ [])) ElemList.nil) (ElemList.cons (Elem.mk (nsTag "MSK") [] "" (ElemList.cons (Elem.mk "ev-name" [] "Masked" ElemList.nil) ElemList.nil)) ElemList.nil))))))))))) := rfl
    show (process_ev_and_prune "n0" "c0" c3_table [("sf1", ({ ev := some "MSK" } : FieldRuntimeMeta))]
        (replace_field_placeholders c3_table c3_sk1 [("sf1", PyVal.str v)]
          [("sf1", ({ ev := some "MSK" } : FieldRuntimeMeta))])).findDesc "ms-sf1"
      = some (c3_component v "MSK" "Masked")
    rw [h1, if_pos hvp, h2, h3,
      pruneList_keep "n0" "c0" "xdstring-value" [] (escape_xml v) ElemList.nil
        (ElemList.cons (Elem.mk (nsTag "MSK") [] "" (ElemList.cons (Elem.mk "ev-name" [] "Masked" ElemList.nil) ElemList.nil)) ElemList.nil)
        rfl rfl rfl (escape_xml_no_comment_mark v)]
    rfl
  · refine ⟨?_, rfl, hne, rfl, rfl⟩
    have h1 : replace_field_placeholders c3_table c3_sk1 [("sf1", PyVal.str v)]
        [("sf1", ({ ev := some "INV" } : FieldRuntimeMeta))]
        = (if pyValPresent (PyVal.str v) = true then c3_sub v else c3_sk1) := rfl
    have h2 : (process_ev_and_prune "n0" "c0" c3_table [("sf1", ({ ev := some "INV" } : FieldRuntimeMeta))]
          (c3_sub v)).findDesc "ms-sf1"
        = some (Elem.mk "ms-sf1" [] "" (removeCommentsList (removeEmptyContainersList "acs" (removeEmptyContainersList "workflow" (removeEmptyContainersList "protocol" (removeEmptyContainersList "provider" (removeEmptyContainersList "subject" (ElemList.cons (Elem.mk "label" [] "Note" ElemList.nil) (pruneList "n0" "c0" (ElemList.cons (Elem.mk "xdstring-value" [] (String.mk ((escape_xml v).data ++ [])) ElemList.nil) (ElemList.cons (Elem.mk (nsTag "INV") [] "" (ElemList.cons (Elem.mk "ev-name" [] "Invalid" ElemList.nil) ElemList.nil)) ElemList.nil))))))))))) := rfl
    show (process_ev_and_prune "n0" "c0" c3_table [("sf1", ({ ev := some "INV" } : FieldRuntimeMeta))]
        (replace_field_placeholders c3_table c3_sk1 [("sf1", PyVal.str v)]
          [("sf1", ({ ev := some "INV" } : FieldRuntimeMeta))])).findDesc "ms-sf1"
      = some (c3_component v "INV" "Invalid")
    rw [h1, if_pos hvp, h2, h3,
      pruneList_keep "n0" "c0" "xdstring-value" [] (escape_xml v) ElemList.nil
        (ElemList.cons (Elem.mk (nsTag "INV") [] "" (ElemList.cons (Elem.mk "ev-name" [] "Invalid" ElemList.nil) ElemList.nil)) ElemList.nil)
        rfl rfl rfl (escape_xml_no_comment_mark v)]
    rfl
  · refine ⟨?_, rfl, hne, rfl, rfl⟩
    have h1 : replace_field_placeholders c3_table c3_sk1 [("sf1", PyVal.str v)]
        [("sf1", ({ ev := some "DER" } : FieldRuntimeMeta))]
        = (if pyValPresent (PyVal.str v) = true then c3_sub v else c3_sk1) := rfl
    have h2 : (process_ev_and_prune "n0" "c0" c3_table [("sf1", ({ ev := some "DER" } : FieldRuntimeMeta))]
          (c3_sub v)).findDesc "ms-sf1"
        = some (Elem.mk "ms-sf1" [] "" (removeCommentsList (removeEmptyContainersList "acs" (removeEmptyContainersList "workflow" (removeEmptyContainersList "protocol" (removeEmptyContainersList "provider" (removeEmptyContainersList "subject" (ElemList.cons (Elem.mk "label" [] "Note" ElemList.nil) (pruneList "n0" "c0" (ElemList.cons (Elem.mk "xdstring-value" [] (String.mk ((escape_xml v).data ++ [])) ElemList.nil) (ElemList.cons (Elem.mk (nsTag "DER") [] "" (ElemList.cons (Elem.mk "ev-name" [] "Derived" ElemList.nil) ElemList.nil)) ElemList.nil))))))))))) := rfl
    show (process_ev_and_prune "n0" "c0" c3_table [("sf1", ({ ev := some "DER" } : FieldRuntimeMeta))]
        (replace_field_placeholders c3_table c3_sk1 [("sf1", PyVal.str v)]
          [("sf1", ({ ev := some "DER" } : FieldRuntimeMeta))])).findDesc "ms-sf1"
      = some (c3_component v "DER" "Derived")
    rw [h1, if_pos hvp, h2, h3,
      pruneList_keep "n0" "c0" "xdstring-value" [] (escape_xml v) ElemList.nil
        (ElemList.cons (Elem.mk (nsTag "DER") [] "" (ElemList.cons (Elem.mk "ev-name" [] "Derived" ElemList.nil) ElemList.nil)) ElemList.nil)
        rfl rfl rfl (escape_xml_no_comment_mark v)]
    rfl
  · refine ⟨?_, rfl, hne, rfl, rfl⟩
    have h1 : replace_field_placeholders c3_table c3_sk1 [("sf1", PyVal.str v)]
        [("sf1", ({ ev := some "UNC" } : FieldRuntimeMeta))]
        = (if pyValPresent (PyVal.str v) = true then c3_sub v else c3_sk1) := rfl
    have h2 : (process_ev_and_prune "n0" "c0" c3_table [("sf1", ({ ev := some "UNC" } : FieldRuntimeMeta))]
          (c3_sub v)).findDesc "ms-sf1"
        = some (Elem.mk "ms-sf1" [] "" (removeCommentsList (removeEmptyContainersList "acs" (removeEmptyContainersList "workflow" (removeEmptyContainersList "protocol" (removeEmptyContainersList "provider" (removeEmptyContainersList "subject" (ElemList.cons (Elem.mk "label" [] "Note" ElemList.nil) (pruneList "n0" "c0" (ElemList.cons (Elem.mk "xdstring-value" [] (String.mk ((escape_xml v).data ++ [])) ElemList.nil) (ElemList.cons (Elem.mk (nsTag "UNC") [] "" (ElemList.cons (Elem.mk "ev-name" [] "Unencoded" ElemList.nil) ElemList.nil)) ElemList.nil))))))))))) := rfl
    show (process_ev_and_prune "n0" "c0" c3_table [("sf1", ({ ev := some "UNC" } : FieldRuntimeMeta))]
        (replace_field_placeholders c3_table c3_sk1 [("sf1", PyVal.str v)]
          [("sf1", ({ ev := some "UNC" } : FieldRuntimeMeta))])).findDesc "ms-sf1"
      = some (c3_component v "UNC" "Unencoded")
    rw [h1, if_pos hvp, h2, h3,
      pruneList_keep "n0" "c0" "xdstring-value" [] (escape_xml v) ElemList.nil
        (ElemList.cons (Elem.mk (nsTag "UNC") [] "" (ElemList.cons (Elem.mk "ev-name" [] "Unencoded" ElemList.nil) ElemList.nil)) ElemList.nil)
        rfl rfl rfl (escape_xml_no_comment_mark v)]
    rfl
  · refine ⟨?_, rfl, hne, rfl, rfl⟩
    have h1 : replace_field_placeholders c3_table c3_sk1 [("sf1", PyVal.str v)]
        [("sf1", ({ ev := some "OTH" } : FieldRuntimeMeta))]
        = (if pyValPresent (PyVal.str v) = true then c3_sub v else c3_sk1) := rfl
    have h2 : (process_ev_and_prune "n0" "c0" c3_table [("sf1", ({ ev := some "OTH" } : FieldRuntimeMeta))]
          (c3_sub v)).findDesc "ms-sf1"
        = some (Elem.mk "ms-sf1" [] "" (removeCommentsList (removeEmptyContainersList "acs" (removeEmptyContainersList "workflow" (removeEmptyContainersList "protocol" (removeEmptyContainersList "provider" (removeEmptyContainersList "subject" (ElemList.cons (Elem.mk "label" [] "Note" ElemList.nil) (pruneList "n0" "c0" (ElemList.cons (Elem.mk "xdstring-value" [] (String.mk ((escape_xml v).data ++ [])) ElemList.nil) (ElemList.cons (Elem.mk (nsTag "OTH") [] "" (ElemList.cons (Elem.mk "ev-name" [] "Other" ElemList.nil) ElemList.nil)) ElemList.nil))))))))))) := rfl
    show (process_ev_and_prune "n0" "c0" c3_table [("sf1", ({ ev := some "OTH" } : FieldRuntimeMeta))]
        (replace_field_placeholders c3_table c3_sk1 [("sf1", PyVal.str v)]
          [("sf1", ({ ev := some "OTH" } : FieldRuntimeMeta))])).findDesc "ms-sf1"
      = some (c3_component v "OTH" "Other")
    rw [h1, if_pos hvp, h2, h3,
      pruneList_keep "n0" "c0" "xdstring-value" [] (escape_xml v) ElemList.nil
        (ElemList.cons (Elem.mk (nsTag "OTH") [] "" (ElemList.cons (Elem.mk "ev-name" [] "Other" ElemList.nil) ElemList.nil)) ElemList.nil)
        rfl rfl rfl (escape_xml_no_comment_mark v)]
    rfl
  · refine ⟨?_, rfl, hne, rfl, rfl⟩
    have h1 : replace_field_placeholders c3_table c3_sk1 [("sf1", PyVal.str v)]
        [("sf1", ({ ev := some "NINF" } : FieldRuntimeMeta))]
        = (if pyValPresent (PyVal.str v) = true then c3_sub v else c3_sk1) := rfl
    have h2 : (process_ev_and_prune "n0" "c0" c3_table [("sf1", ({ ev := some "NINF" } : FieldRuntimeMeta))]
          (c3_sub v)).findDesc "ms-sf1"
        = some (Elem.mk "ms-sf1" [] "" (removeCommentsList (removeEmptyContainersList "acs" (removeEmptyContainersList "workflow" (removeEmptyContainersList "protocol" (removeEmptyContainersList "provider" (removeEmptyContainersList "subject" (ElemList.cons (Elem.mk "label" [] "Note" ElemList.nil) (pruneList "n0" "c0" (ElemList.cons (Elem.mk "xdstring-value" [] (String.mk ((escape_xml v).data ++ [])) ElemList.nil) (ElemList.cons (Elem.mk (nsTag "NINF") [] "" (ElemList.cons (Elem.mk "ev-name" [] "Negative Infinity" ElemList.nil) ElemList.nil)) ElemList.nil))))))))))) := rfl
    show (process_ev_and_prune "n0" "c0" c3_table [("sf1", ({ ev := some "NINF" } : FieldRuntimeMeta))]
        (replace_field_placeholders c3_table c3_sk1 [("sf1", PyVal.str v)]
          [("sf1", ({ ev := some "NINF" } : FieldRuntimeMeta))])).findDesc "ms-sf1"
      = some (c3_component v "NINF" "Negative Infinity")
    rw [h1, if_pos hvp, h2, h3,
      pruneList_keep "n0" "c0" "xdstring-value" [] (escape_xml v) ElemList.nil
        (ElemList.cons (Elem.mk (nsTag "NINF") [] "" (ElemList.cons (Elem.mk "ev-name" [] "Negative Infinity" ElemList.nil) ElemList.nil)) ElemList.nil)
        rfl rfl rfl (escape_xml_no_comment_mark v)]
    rfl
  · refine ⟨?_, rfl, hne, rfl, rfl⟩
    have h1 : replace_field_placeholders c3_table c3_sk1 [("sf1", PyVal.str v)]
        [("sf1", ({ ev := some "PINF" } : FieldRuntimeMeta))]
        = (if pyValPresent (PyVal.str v) = true then c3_sub v else c3_sk1) := rfl
    have h2 : (process_ev_and_prune "n0" "c0" c3_table [("sf1", ({ ev := some "PINF" } : FieldRuntimeMeta))]
          (c3_sub v)).findDesc "ms-sf1"
        = some (Elem.mk "ms-sf1" [] "" (removeCommentsList (removeEmptyContainersList "acs" (removeEmptyContainersList "workflow" (removeEmptyContainersList "protocol" (removeEmptyContainersList "provider" (removeEmptyContainersList "subject" (ElemList.cons (Elem.mk "label" [] "Note" ElemList.nil) (pruneList "n0" "c0" (ElemList.cons (Elem.mk "xdstring-value" [] (String.mk ((escape_xml v).data ++ [])) ElemList.nil) (ElemList.cons (Elem.mk (nsTag "PINF") [] "" (ElemList.cons (Elem.mk "ev-name" [] "Positive Infinity" ElemList.nil) ElemList.nil)) ElemList.nil))))))))))) := rfl
    show (process_ev_and_prune "n0" "c0" c3_table [("sf1", ({ ev := some "PINF" } : FieldRuntimeMeta))]
        (replace_field_placeholders c3_table c3_sk1 [("sf1", PyVal.str v)]
          [("sf1", ({ ev := some "PINF" } : FieldRuntimeMeta))])).findDesc "ms-sf1"
      = some (c3_component v "PINF" "Positive Infinity")
    rw [h1, if_pos hvp, h2, h3,
      pruneList_keep "n0" "c0" "xdstring-value" [] (escape_xml v) ElemList.nil
        (ElemList.cons (Elem.mk (nsTag "PINF") [] "" (ElemList.cons (Elem.mk "ev-name" [] "Positive Infinity" ElemList.nil) ElemList.nil)) ElemList.nil)
        rfl rfl rfl (escape_xml_no_comment_mark v)]
    rfl
  · refine ⟨?_, rfl, hne, rfl, rfl⟩
    have h1 : replace_field_placeholders c3_table c3_sk1 [("sf1", PyVal.str v)]
        [("sf1", ({ ev := some "ASKR" } : FieldRuntimeMeta))]
        = (if pyValPresent (PyVal.str v) = true then c3_sub v else c3_sk1) := rfl
    have h2 : (process_ev_and_prune "n0" "c0" c3_table [("sf1", ({ ev := some "ASKR" } : FieldRuntimeMeta))]
          (c3_sub v)).findDesc "ms-sf1"
        = some (Elem.mk "ms-sf1" [] "" (removeCommentsList (removeEmptyContainersList "acs" (removeEmptyContainersList "workflow" (removeEmptyContainersList "protocol" (removeEmptyContainersList "provider" (removeEmptyContainersList "subject" (ElemList.cons (Elem.mk "label" [] "Note" ElemList.nil) (pruneList "n0" "c0" (ElemList.cons (Elem.mk "xdstring-value" [] (String.mk ((escape_xml v).data ++ [])) ElemList.nil) (ElemList.cons (Elem.mk (nsTag "ASKR") [] "" (ElemList.cons (Elem.mk "ev-name" [] "Asked and Refused" ElemList.nil) ElemList.nil)) ElemList.nil))))))))))) := rfl
    show (process_ev_and_prune "n0" "c0" c3_table [("sf1", ({ ev := some "ASKR" } : FieldRuntimeMeta))]
        (replace_field_placeholders c3_table c3_sk1 [("sf1", PyVal.str v)]
          [("sf1", ({ ev := some "ASKR" } : FieldRuntimeMeta))])).findDesc "ms-sf1"
      = some (c3_component v "ASKR" "Asked and Refused")
    rw [h1, if_pos hvp, h2, h3,
      pruneList_keep "n0" "c0" "xdstring-value" [] (escape_xml v) ElemList.nil
        (ElemList.cons (Elem.mk (nsTag "ASKR") [] "" (ElemList.cons (Elem.mk "ev-name" [] "Asked and Refused" ElemList.nil) ElemList.nil)) ElemList.nil)
        rfl rfl rfl (escape_xml_no_comment_mark v)]
    rfl
  · refine ⟨?_, rfl, hne, rfl, rfl⟩
    have h1 : replace_field_placeholders c3_table c3_sk1 [("sf1", PyVal.str v)]
        [("sf1", ({ ev := some "NASK" } : FieldRuntimeMeta))]
        = (if pyValPresent (PyVal.str v) = true then c3_sub v else c3_sk1) := rfl
    have h2 : (process_ev_and_prune "n0" "c0" c3_table [("sf1", ({ ev := some "NASK" } : FieldRuntimeMeta))]
          (c3_sub v)).findDesc "ms-sf1"
        = some (Elem.mk "ms-sf1" [] "" (removeCommentsList (removeEmptyContainersList "acs" (removeEmptyContainersList "workflow" (removeEmptyContainersList "protocol" (removeEmptyContainersList "provider" (removeEmptyContainersList "subject" (ElemList.cons (Elem.mk "label" [] "Note" ElemList.nil) (pruneList "n0" "c0" (ElemList.cons (Elem.mk "xdstring-value" [] (String.mk ((escape_xml v).data ++ [])) ElemList.nil) (ElemList.cons (Elem.mk (nsTag "NASK") [] "" (ElemList.cons (Elem.mk "ev-name" [] "Not Asked" ElemList.nil) ElemList.nil)) ElemList.nil))))))))))) := rfl
    show (process_ev_and_prune "n0" "c0" c3_table [("sf1", ({ ev := some "NASK" } : FieldRuntimeMeta))]
        (replace_field_placeholders c3_table c3_sk1 [("sf1", PyVal.str v)]
          [("sf1", ({ ev := some "NASK" } : FieldRuntimeMeta))])).findDesc "ms-sf1"
      = some (c3_component v "NASK" "Not Asked")
    rw [h1, if_pos hvp, h2, h3,
      pruneList_keep "n0" "c0" "xdstring-value" [] (escape_xml v) ElemList.nil
        (ElemList.cons (Elem.mk (nsTag "NASK") [] "" (ElemList.cons (Elem.mk "ev-name" [] "Not Asked" ElemList.nil) ElemList.nil)) ElemList.nil)
        rfl rfl rfl (escape_xml_no_comment_mark v)]
    rfl
  · refine ⟨?_, rfl, hne, rfl, rfl⟩
    have h1 : replace_field_placeholders c3_table c3_sk1 [("sf1", PyVal.str v)]
        [("sf1", ({ ev := some "NAV" } : FieldRuntimeMeta))]
        = (if pyValPresent (PyVal.str v) = true then c3_sub v else c3_sk1) := rfl
    have h2 : (process_ev_and_prune "n0" "c0" c3_table [("sf1", ({ ev := some "NAV" } : FieldRuntimeMeta))]
          (c3_sub v)).findDesc "ms-sf1"
        = some (Elem.mk "ms-sf1" [] "" (removeCommentsList (removeEmptyContainersList "acs" (removeEmptyContainersList "workflow" (removeEmptyContainersList "protocol" (removeEmptyContainersList "provider" (removeEmptyContainersList "subject" (ElemList.cons (Elem.mk "label" [] "Note" ElemList.nil) (pruneList "n0" "c0" (ElemList.cons (Elem.mk "xdstring-value" [] (String.mk ((escape_xml v).data ++ [])) ElemList.nil) (ElemList.cons (Elem.mk (nsTag "NAV") [] "" (ElemList.cons (Elem.mk "ev-name" [] "Not Available" ElemList.nil) ElemList.nil)) ElemList.nil))))))))))) := rfl
    show (process_ev_and_prune "n0" "c0" c3_table [("sf1", ({ ev := some "NAV" } : FieldRuntimeMeta))]
        (replace_field_placeholders c3_table c3_sk1 [("sf1", PyVal.str v)]
          [("sf1", ({ ev := some "NAV" } : FieldRuntimeMeta))])).findDesc "ms-sf1"
      = some (c3_component v "NAV" "Not Available")
    rw [h1, if_pos hvp, h2, h3,
      pruneList_keep "n0" "c0" "xdstring-value" [] (escape_xml v) ElemList.nil
        (ElemList.cons (Elem.mk (nsTag "NAV") [] "" (ElemList.cons (Elem.mk "ev-name" [] "Not Available" ElemList.nil) ElemList.nil)) ElemList.nil)
        rfl rfl rfl (escape_xml_no_comment_mark v)]
    rfl
  · refine ⟨?_, rfl, hne, rfl, rfl⟩
    have h1 : replace_field_placeholders c3_table c3_sk1 [("sf1", PyVal.str v)]
        [("sf1", ({ ev := some "NA" } : FieldRuntimeMeta))]
        = (if pyValPresent (PyVal.str v) = true then c3_sub v else c3_sk1) := rfl
    have h2 : (process_ev_and_prune "n0" "c0" c3_table [("sf1", ({ ev := some "NA" } : FieldRuntimeMeta))]
          (c3_sub v)).findDesc "ms-sf1"
        = some (Elem.mk "ms-sf1" [] "" (removeCommentsList (removeEmptyContainersList "acs" (removeEmptyContainersList "workflow" (removeEmptyContainersList "protocol" (removeEmptyContainersList "provider" (removeEmptyContainersList "subject" (ElemList.cons (Elem.mk "label" [] "Note" ElemList.nil) (pruneList "n0" "c0" (ElemList.cons (Elem.mk "xdstring-value" [] (String.mk ((escape_xml v).data ++ [])) ElemList.nil) (ElemList.cons (Elem.mk (nsTag "NA") [] "" (ElemList.cons (Elem.mk "ev-name" [] "Not Applicable" ElemList.nil) ElemList.nil)) ElemList.nil))))))))))) := rfl
    show (process_ev_and_prune "n0" "c0" c3_table [("sf1", ({ ev := some "NA" } : FieldRuntimeMeta))]
        (replace_field_placeholders c3_table c3_sk1 [("sf1", PyVal.str v)]
          [("sf1", ({ ev := some "NA" } : FieldRuntimeMeta))])).findDesc "ms-sf1"
      = some (c3_component v "NA" "Not Applicable")
    rw [h1, if_pos hvp, h2, h3,
      pruneList_keep "n0" "c0" "xdstring-value" [] (escape_xml v) ElemList.nil
        (ElemList.cons (Elem.mk (nsTag "NA") [] "" (ElemList.cons (Elem.mk "ev-name" [] "Not Applicable" ElemList.nil) ElemList.nil)) ElemList.nil)
        rfl rfl rfl (escape_xml_no_comment_mark v)]
    rfl
  · refine ⟨?_, rfl, hne, rfl, rfl⟩
    have h1 : replace_field_placeholders c3_table c3_sk1 [("sf1", PyVal.str v)]
        [("sf1", ({ ev := some "TRC" } : FieldRuntimeMeta))]
        = (if pyValPresent (PyVal.str v) = true then c3_sub v else c3_sk1) := rfl
    have h2 : (process_ev_and_prune "n0" "c0" c3_table [("sf1", ({ ev := some "TRC" } : FieldRuntimeMeta))]
          (c3_sub v)).findDesc "ms-sf1"
        = some (Elem.mk "ms-sf1" [] "" (removeCommentsList (removeEmptyContainersList "acs" (removeEmptyContainersList "workflow" (removeEmptyContainersList "protocol" (removeEmptyContainersList "provider" (removeEmptyContainersList "subject" (ElemList.cons (Elem.mk "label" [] "Note" ElemList.nil) (pruneList "n0" "c0" (ElemList.cons (Elem.mk "xdstring-value" [] (String.mk ((escape_xml v).data ++ [])) ElemList.nil) (ElemList.cons (Elem.mk (nsTag "TRC") [] "" (ElemList.cons (Elem.mk "ev-name" [] "Trace" ElemList.nil) ElemList.nil)) ElemList.nil))))))))))) := rfl
    show (process_ev_and_prune "n0" "c0" c3_table [("sf1", ({ ev := some "TRC" } : FieldRuntimeMeta))]
        (replace_field_placeholders c3_table c3_sk1 [("sf1", PyVal.str v)]
          [("sf1", ({ ev := some "TRC" } : FieldRuntimeMeta))])).findDesc "ms-sf1"
      = some (c3_component v "TRC" "Trace")
    rw [h1, if_pos hvp, h2, h3,
      pruneList_keep "n0" "c0" "xdstring-value" [] (escape_xml v) ElemList.nil
        (ElemList.cons (Elem.mk (nsTag "TRC") [] "" (ElemList.cons (Elem.mk "ev-name" [] "Trace" ElemList.nil) ElemList.nil)) ElemList.nil)
        rfl rfl rfl (escape_xml_no_comment_mark v)]
    rfl
  · refine ⟨?_, rfl, hne, rfl, rfl⟩
    have h1 : replace_field_placeholders c3_table c3_sk1 [("sf1", PyVal.str v)]
        [("sf1", ({ ev := some "ASKU" } : FieldRuntimeMeta))]
        = (if pyValPresent (PyVal.str v) = true then c3_sub v else c3_sk1) := rfl
    have h2 : (process_ev_and_prune "n0" "c0" c3_table [("sf1", ({ ev := some "ASKU" } : FieldRuntimeMeta))]
          (c3_sub v)).findDesc "ms-sf1"
        = some (Elem.mk "ms-sf1" [] "" (removeCommentsList (removeEmptyContainersList "acs" (removeEmptyContainersList "workflow" (removeEmptyContainersList "protocol" (removeEmptyContainersList "provider" (removeEmptyContainersList "subject" (ElemList.cons (Elem.mk "label" [] "Note" ElemList.nil) (pruneList "n0" "c0" (ElemList.cons (Elem.mk "xdstring-value" [] (String.mk ((escape_xml v).data ++ [])) ElemList.nil) (ElemList.cons (Elem.mk (nsTag "ASKU") [] "" (ElemList.cons (Elem.mk "ev-name" [] "Asked but Unknown" ElemList.nil) ElemList.nil)) ElemList.nil))))))))))) := rfl
    show (process_ev_and_prune "n0" "c0" c3_table [("sf1", ({ ev := some "ASKU" } : FieldRuntimeMeta))]
        (replace_field_placeholders c3_table c3_sk1 [("sf1", PyVal.str v)]
          [("sf1", ({ ev := some "ASKU" } : FieldRuntimeMeta))])).findDesc "ms-sf1"
      = some (c3_component v "ASKU" "Asked but Unknown")
    rw [h1, if_pos hvp, h2, h3,
      pruneList_keep "n0" "c0" "xdstring-value" [] (escape_xml v) ElemList.nil
        (ElemList.cons (Elem.mk (nsTag "ASKU") [] "" (ElemList.cons (Elem.mk "ev-name" [] "Asked but Unknown" ElemList.nil) ElemList.nil)) ElemList.nil)
        rfl rfl rfl (escape_xml_no_comment_mark v)]
    rfl
  · refine ⟨?_, rfl, hne, rfl, rfl⟩
    have h1 : replace_field_placeholders c3_table c3_sk1 [("sf1", PyVal.str v)]
        [("sf1", ({ ev := some "UNK" } : FieldRuntimeMeta))]
        = (if pyValPresent (PyVal.str v) = true then c3_sub v else c3_sk1) := rfl
    have h2 : (process_ev_and_prune "n0" "c0" c3_table [("sf1", ({ ev := some "UNK" } : FieldRuntimeMeta))]
          (c3_sub v)).findDesc "ms-sf1"
        = some (Elem.mk "ms-sf1" [] "" (removeCommentsList (removeEmptyContainersList "acs" (removeEmptyContainersList "workflow" (removeEmptyContainersList "protocol" (removeEmptyContainersList "provider" (removeEmptyContainersList "subject" (ElemList.cons (Elem.mk "label" [] "Note" ElemList.nil) (pruneList "n0" "c0" (ElemList.cons (Elem.mk "xdstring-value" [] (String.mk ((escape_xml v).data ++ [])) ElemList.nil) (ElemList.cons (Elem.mk (nsTag "UNK") [] "" (ElemList.cons (Elem.mk "ev-name" [] "Unknown" ElemList.nil) ElemList.nil)) ElemList.nil))))))))))) := rfl
    show (process_ev_and_prune "n0" "c0" c3_table [("sf1", ({ ev := some "UNK" } : FieldRuntimeMeta))]
        (replace_field_placeholders c3_table c3_sk1 [("sf1", PyVal.str v)]
          [("sf1", ({ ev := some "UNK" } : FieldRuntimeMeta))])).findDesc "ms-sf1"
      = some (c3_component v "UNK" "Unknown")
    rw [h1, if_pos hvp, h2, h3,
      pruneList_keep "n0" "c0" "xdstring-value" [] (escape_xml v) ElemList.nil
        (ElemList.cons (Elem.mk (nsTag "UNK") [] "" (ElemList.cons (Elem.mk "ev-name" [] "Unknown" ElemList.nil) ElemList.nil)) ElemList.nil)
        rfl rfl rfl (escape_xml_no_comment_mark v)]
    rfl
  · refine ⟨?_, rfl, hne, rfl, rfl⟩
    have h1 : replace_field_placeholders c3_table c3_sk1 [("sf1", PyVal.str v)]
        [("sf1", ({ ev := some "QS" } : FieldRuntimeMeta))]
        = (if pyValPresent (PyVal.str v) = true then c3_sub v else c3_sk1) := rfl
    have h2 : (process_ev_and_prune "n0" "c0" c3_table [("sf1", ({ ev := some "QS" } : FieldRuntimeMeta))]
          (c3_sub v)).findDesc "ms-sf1"
        = some (Elem.mk "ms-sf1" [] "" (removeCommentsList (removeEmptyContainersList "acs" (removeEmptyContainersList "workflow" (removeEmptyContainersList "protocol" (removeEmptyContainersList "provider" (removeEmptyContainersList "subject" (ElemList.cons (Elem.mk "label" [] "Note" ElemList.nil) (pruneList "n0" "c0" (ElemList.cons (Elem.mk "xdstring-value" [] (String.mk ((escape_xml v).data ++ [])) ElemList.nil) (ElemList.cons (Elem.mk (nsTag "QS") [] "" (ElemList.cons (Elem.mk "ev-name" [] "Sufficient Quantity" ElemList.nil) ElemList.nil)) ElemList.nil))))))))))) := rfl
    show (process_ev_and_prune "n0" "c0" c3_table [("sf1", ({ ev := some "QS" } : FieldRuntimeMeta))]
        (replace_field_placeholders c3_table c3_sk1 [("sf1", PyVal.str v)]
          [("sf1", ({ ev := some "QS" } : FieldRuntimeMeta))])).findDesc "ms-sf1"
      = some (c3_component v "QS" "Sufficient Quantity")
    rw [h1, if_pos hvp, h2, h3,
      pruneList_keep "n0" "c0" "xdstring-value" [] (escape_xml v) ElemList.nil
        (ElemList.cons (Elem.mk (nsTag "QS") [] "" (ElemList.cons (Elem.mk "ev-name" [] "Sufficient Quantity" ElemList.nil) ElemList.nil)) ElemList.nil)
        rfl rfl rfl (escape_xml_no_comment_mark v)]
    rfl

/-- Witness for C3: the concrete instance with value `"hello"` and EV code
`"NASK"`. -/
theorem C3_ev_coexistence_witness :
    (("NASK", "Not Asked") ∈ EV_CODES) ∧ ("hello" : String) ≠ "" ∧
    ((build_from_form "n0" "c0" c3_table c3_skeleton "i-c3"
        [("sf1", PyVal.str "hello")]
        [("sf1", { ev := some "NASK" })]).findDesc "ms-sf1"
      = some (c3_component "hello" "NASK" "Not Asked")) :=
  ⟨by decide, by decide,
    (C3_ev_coexistence "NASK" "Not Asked" "hello" (by decide) (by decide)).1⟩

/-- Witness for C6: the truncation law and the element-name rule applied at
the scenario input. -/
theorem C6_temporal_date_truncation_witness :
    format_temporal_value "2024-03-15T10:30:00" "date" =
      String.mk (("2024-03-15T10:30:00").data.takeWhile
        (fun c => !(c == spaceChar || c == 'T'))) ∧
    get_value_element_name "XdTemporal"
      (some { ct_id := "tf1", type := "XdTemporal", label := "Event Date",
              temporal_types := ["date"] }) = "xdtemporal-date" :=
  ⟨C6_temporal_date_truncation.1 "2024-03-15T10:30:00",
   C6_temporal_date_truncation.2.1
     { ct_id := "tf1", type := "XdTemporal", label := "Event Date",
       temporal_types := ["date"] } (by rfl)⟩

end SDC4
